import Mathlib

/-!
Verification development for the RunPod transcoding handler
(src/infrastructure/runpod/handler/main.py).

The handler is shallow-embedded: external collaborators (object storage,
ffmpeg/ffprobe/audiowaveform subprocesses, the HTTP client, the HMAC
primitive and the stdlib JSON decoder) are modelled as oracles collected
in an `Env` record, while every piece of control flow, string and path
construction, command-line construction, key derivation and payload
serialization that the Python file itself performs is translated
directly.  Machine integers are modelled as `Int`/`Nat` (Python ints are
unbounded); the single floating-point expression `int(duration * 0.1)`
is modelled by exact truncating division, which agrees with the IEEE
computation on all representable media durations.
-/

-- ===========================================================================
-- Byte-level string helpers (UTF-8 / Latin-1 / ASCII)
-- ===========================================================================

/-- A character is ASCII when its code point is below 128. -/
def isAsciiChar (c : Char) : Bool := c.toNat < 128

/-- Every character of the list is ASCII. -/
def allAsciiList (l : List Char) : Bool := l.all isAsciiChar

/-- Every character of the string is ASCII. -/
def allAscii (s : String) : Bool := allAsciiList s.data

/-- UTF-8 encoding of a single code point, as byte values. -/
def utf8EncodeChar (c : Char) : List Nat :=
  let n := c.toNat
  if n < 128 then [n]
  else if n < 2048 then [192 + n / 64, 128 + n % 64]
  else if n < 65536 then [224 + n / 4096, 128 + (n / 64) % 64, 128 + n % 64]
  else [240 + n / 262144, 128 + (n / 4096) % 64, 128 + (n / 64) % 64, 128 + n % 64]

/-- UTF-8 encoding of a character list. -/
def utf8EncodeList : List Char → List Nat
  | [] => []
  | c :: cs => utf8EncodeChar c ++ utf8EncodeList cs

/-- UTF-8 encoding of a string (models Python `str.encode("utf-8")`). -/
def utf8Encode (s : String) : List Nat := utf8EncodeList s.data

/-- Latin-1 encoding of one character; fails above code point 255
(models the `str` to bytes step of the HTTP stack, which raises
`UnicodeEncodeError` outside Latin-1). -/
def latin1EncodeChar (c : Char) : Option Nat :=
  if c.toNat < 256 then some c.toNat else none

/-- Latin-1 encoding of a character list, `none` when some character is
not representable. -/
def latin1EncodeList : List Char → Option (List Nat)
  | [] => some []
  | c :: cs =>
    match latin1EncodeChar c, latin1EncodeList cs with
    | some b, some bs => some (b :: bs)
    | _, _ => none

/-- Latin-1 encoding of a string. -/
def latin1Encode (s : String) : Option (List Nat) := latin1EncodeList s.data

/-- Bytes actually placed on the wire for a `str` POST body by the HTTP
client stack. -/
def httpDeliveredBytes (s : String) : Option (List Nat) := latin1Encode s

theorem utf8EncodeChar_of_ascii (c : Char) (h : isAsciiChar c = true) :
    utf8EncodeChar c = [c.toNat] := by
  unfold isAsciiChar at h
  simp only [decide_eq_true_eq] at h
  unfold utf8EncodeChar
  simp [h]

theorem latin1EncodeList_of_ascii (l : List Char) (h : allAsciiList l = true) :
    latin1EncodeList l = some (utf8EncodeList l) := by
  induction l with
  | nil => rfl
  | cons c cs ih =>
    unfold allAsciiList at h
    simp only [List.all_cons, Bool.and_eq_true] at h
    have hc : c.toNat < 128 := by
      have := h.1
      unfold isAsciiChar at this
      simpa using this
    have h256 : c.toNat < 256 := by omega
    have hcs := ih (by unfold allAsciiList; exact h.2)
    unfold latin1EncodeList utf8EncodeList
    rw [utf8EncodeChar_of_ascii c (by unfold isAsciiChar; simpa using hc)]
    simp [latin1EncodeChar, h256, hcs]

theorem latin1_eq_utf8_of_ascii (s : String) (h : allAscii s = true) :
    latin1Encode s = some (utf8Encode s) :=
  latin1EncodeList_of_ascii s.data h

theorem allAsciiList_append (a b : List Char) :
    allAsciiList (a ++ b) = (allAsciiList a && allAsciiList b) := by
  unfold allAsciiList
  simp [List.all_append]

theorem allAscii_append (a b : String) :
    allAscii (a ++ b) = (allAscii a && allAscii b) := by
  unfold allAscii
  have : (a ++ b).data = a.data ++ b.data := String.data_append a b
  rw [this, allAsciiList_append]

-- ===========================================================================
-- Decimal and hexadecimal digits, Python int repr
-- ===========================================================================

/-- Decimal digit character for a value below ten. -/
def decDigitChar (d : Nat) : Char :=
  match d with
  | 0 => '0' | 1 => '1' | 2 => '2' | 3 => '3' | 4 => '4'
  | 5 => '5' | 6 => '6' | 7 => '7' | 8 => '8' | _ => '9'

/-- Lowercase hexadecimal digit character for a value below sixteen. -/
def hexDigitChar (d : Nat) : Char :=
  match d with
  | 0 => '0' | 1 => '1' | 2 => '2' | 3 => '3' | 4 => '4'
  | 5 => '5' | 6 => '6' | 7 => '7' | 8 => '8' | 9 => '9'
  | 10 => 'a' | 11 => 'b' | 12 => 'c' | 13 => 'd' | 14 => 'e' | _ => 'f'

/-- Decimal digits (auxiliary, fuel-driven so that it reduces by
structural recursion; the fuel never runs out because a number has at
most `n + 1` digits). -/
def natDecCharsAux : Nat → Nat → List Char
  | 0, _ => []
  | fuel + 1, n =>
    if n < 10 then [decDigitChar n]
    else natDecCharsAux fuel (n / 10) ++ [decDigitChar (n % 10)]

/-- Decimal digits of a natural number, most significant first. -/
def natDecChars (n : Nat) : List Char := natDecCharsAux (n + 1) n

/-- Decimal representation of a Python integer (`repr`/`str`, also the
JSON serialization of an int). -/
def pyIntRepr (i : Int) : String :=
  match i with
  | .ofNat n => String.mk (natDecChars n)
  | .negSucc m => String.mk ('-' :: natDecChars (m + 1))

/-- Four-character lowercase hexadecimal rendering of a code unit below
65536, as used in JSON `\uXXXX` escapes. -/
def hex4 (n : Nat) : List Char :=
  [hexDigitChar (n / 4096 % 16), hexDigitChar (n / 256 % 16),
   hexDigitChar (n / 16 % 16), hexDigitChar (n % 16)]

theorem isAsciiChar_decDigitChar (d : Nat) : isAsciiChar (decDigitChar d) = true := by
  unfold decDigitChar
  rcases d with _ | _ | _ | _ | _ | _ | _ | _ | _ | d <;> simp [isAsciiChar]

theorem isAsciiChar_hexDigitChar (d : Nat) : isAsciiChar (hexDigitChar d) = true := by
  unfold hexDigitChar
  rcases d with _ | _ | _ | _ | _ | _ | _ | _ | _ | _ | _ | _ | _ | _ | _ | d <;>
    simp [isAsciiChar]

theorem allAsciiList_natDecCharsAux (fuel n : Nat) :
    allAsciiList (natDecCharsAux fuel n) = true := by
  induction fuel generalizing n with
  | zero => rfl
  | succ f ih =>
    unfold natDecCharsAux
    by_cases h : n < 10
    · simp [h, allAsciiList, isAsciiChar_decDigitChar]
    · simp only [h, if_false]
      rw [allAsciiList_append, ih (n / 10)]
      simp [allAsciiList, isAsciiChar_decDigitChar]

theorem allAsciiList_natDecChars (n : Nat) : allAsciiList (natDecChars n) = true :=
  allAsciiList_natDecCharsAux (n + 1) n

theorem allAscii_pyIntRepr (i : Int) : allAscii (pyIntRepr i) = true := by
  unfold pyIntRepr allAscii
  match i with
  | .ofNat n => exact allAsciiList_natDecChars n
  | .negSucc m =>
    show allAsciiList ('-' :: natDecChars (m + 1)) = true
    unfold allAsciiList
    simp only [List.all_cons, Bool.and_eq_true]
    constructor
    · decide
    · exact allAsciiList_natDecChars (m + 1)

theorem allAsciiList_hex4 (n : Nat) : allAsciiList (hex4 n) = true := by
  simp [hex4, allAsciiList, isAsciiChar_hexDigitChar]

-- ===========================================================================
-- Python json.dumps (default options: ensure_ascii=True, separators ", " ": ")
-- ===========================================================================

/-- Escape of one character inside a JSON string literal, as produced by
`json.dumps` with its default `ensure_ascii=True`: the two-character
escapes for backslash, quote and the common control characters, `\uXXXX`
for the remaining control characters and for every non-ASCII code point
(with a surrogate pair above U+FFFF), and the character itself for
printable ASCII. -/
def jsonEscapeChar (c : Char) : List Char :=
  let n := c.toNat
  if c = '\\' then ['\\', '\\']
  else if c = '\"' then ['\\', '\"']
  else if n = 8 then ['\\', 'b']
  else if n = 12 then ['\\', 'f']
  else if n = 10 then ['\\', 'n']
  else if n = 13 then ['\\', 'r']
  else if n = 9 then ['\\', 't']
  else if n < 32 then '\\' :: 'u' :: hex4 n
  else if n < 127 then [c]
  else if n < 65536 then '\\' :: 'u' :: hex4 n
  else
    '\\' :: 'u' :: hex4 (55296 + (n - 65536) / 1024) ++
      ('\\' :: 'u' :: hex4 (56320 + (n - 65536) % 1024))

/-- Escape of every character of a JSON string body. -/
def jsonEscapeList : List Char → List Char
  | [] => []
  | c :: cs => jsonEscapeChar c ++ jsonEscapeList cs

/-- JSON serialization of a Python `str`: quoted and escaped. -/
def pyJsonStr (s : String) : String :=
  String.mk ('\"' :: jsonEscapeList s.data ++ ['\"'])

/-- JSON serialization of an optional string (`None` becomes `null`). -/
def pyJsonOptStr : Option String → String
  | none => "null"
  | some s => pyJsonStr s

/-- JSON serialization of an optional int (`None` becomes `null`). -/
def pyJsonOptInt : Option Int → String
  | none => "null"
  | some i => pyIntRepr i

/-- Comma-separated JSON items, matching the default `", "` separator. -/
def pyJsonItems : List String → String
  | [] => ""
  | [x] => x
  | x :: xs => x ++ ", " ++ pyJsonItems xs

/-- JSON serialization of a Python list of strings. -/
def pyJsonStrList (xs : List String) : String :=
  "[" ++ pyJsonItems (xs.map pyJsonStr) ++ "]"

theorem allAsciiList_jsonEscapeChar (c : Char) :
    allAsciiList (jsonEscapeChar c) = true := by
  unfold jsonEscapeChar
  by_cases h1 : c = '\\'
  · simp [h1]; decide
  by_cases h2 : c = '\"'
  · simp [h1, h2]; decide
  simp only [h1, h2, if_false]
  by_cases h3 : c.toNat = 8
  · simp [h3]; decide
  by_cases h4 : c.toNat = 12
  · simp [h3, h4]; decide
  by_cases h5 : c.toNat = 10
  · simp [h3, h4, h5]; decide
  by_cases h6 : c.toNat = 13
  · simp [h3, h4, h5, h6]; decide
  by_cases h7 : c.toNat = 9
  · simp [h3, h4, h5, h6, h7]; decide
  simp only [h3, h4, h5, h6, h7, if_false]
  by_cases h8 : c.toNat < 32
  · simp only [h8, if_true]
    show allAsciiList ('\\' :: 'u' :: hex4 c.toNat) = true
    unfold allAsciiList
    simp only [List.all_cons, Bool.and_eq_true]
    exact ⟨by decide, by decide, allAsciiList_hex4 c.toNat⟩
  simp only [h8, if_false]
  by_cases h9 : c.toNat < 127
  · simp only [h9, if_true]
    unfold allAsciiList isAsciiChar
    simp only [List.all_cons, List.all_nil, Bool.and_true]
    simp
    omega
  simp only [h9, if_false]
  by_cases h10 : c.toNat < 65536
  · simp only [h10, if_true]
    unfold allAsciiList
    simp only [List.all_cons, Bool.and_eq_true]
    exact ⟨by decide, by decide, allAsciiList_hex4 c.toNat⟩
  · simp only [h10, if_false]
    rw [show ('\\' :: 'u' :: hex4 (55296 + (c.toNat - 65536) / 1024) ++
      ('\\' :: 'u' :: hex4 (56320 + (c.toNat - 65536) % 1024))) =
      ('\\' :: 'u' :: hex4 (55296 + (c.toNat - 65536) / 1024)) ++
      ('\\' :: 'u' :: hex4 (56320 + (c.toNat - 65536) % 1024)) from rfl]
    rw [allAsciiList_append]
    unfold allAsciiList
    simp only [List.all_cons, Bool.and_eq_true, Bool.and_true]
    refine ⟨⟨by decide, by decide, ?_⟩, by decide, by decide, ?_⟩
    · exact allAsciiList_hex4 _
    · exact allAsciiList_hex4 _

theorem allAsciiList_jsonEscapeList (l : List Char) :
    allAsciiList (jsonEscapeList l) = true := by
  induction l with
  | nil => rfl
  | cons c cs ih =>
    unfold jsonEscapeList
    rw [allAsciiList_append, allAsciiList_jsonEscapeChar, ih]
    rfl

theorem allAsciiList_cons (c : Char) (l : List Char) :
    allAsciiList (c :: l) = (isAsciiChar c && allAsciiList l) := rfl

theorem allAscii_pyJsonStr (s : String) : allAscii (pyJsonStr s) = true := by
  unfold pyJsonStr allAscii
  show allAsciiList ('\"' :: (jsonEscapeList s.data ++ ['\"'])) = true
  rw [allAsciiList_cons, allAsciiList_append, allAsciiList_jsonEscapeList]
  decide

theorem allAscii_pyJsonOptStr (o : Option String) :
    allAscii (pyJsonOptStr o) = true := by
  cases o with
  | none => decide
  | some s => exact allAscii_pyJsonStr s

theorem allAscii_pyJsonOptInt (o : Option Int) :
    allAscii (pyJsonOptInt o) = true := by
  cases o with
  | none => decide
  | some i => exact allAscii_pyIntRepr i

theorem allAscii_pyJsonItems (xs : List String)
    (h : ∀ x ∈ xs, allAscii x = true) : allAscii (pyJsonItems xs) = true := by
  induction xs with
  | nil => decide
  | cons x xs ih =>
    cases xs with
    | nil => exact h x (by simp)
    | cons y ys =>
      show allAscii ((x ++ ", ") ++ pyJsonItems (y :: ys)) = true
      have hx := h x (by simp)
      have hrest := ih (fun z hz => h z (List.mem_cons_of_mem x hz))
      rw [allAscii_append, allAscii_append, hx, hrest]
      decide

theorem allAscii_pyJsonStrList (xs : List String) :
    allAscii (pyJsonStrList xs) = true := by
  unfold pyJsonStrList
  rw [allAscii_append, allAscii_append]
  have : allAscii (pyJsonItems (xs.map pyJsonStr)) = true := by
    apply allAscii_pyJsonItems
    intro x hx
    rcases List.mem_map.mp hx with ⟨s, _, rfl⟩
    exact allAscii_pyJsonStr s
  simp [this]
  decide

-- ===========================================================================
-- Python runtime values: JSON values, float(), str.rfind, slicing
-- ===========================================================================

/-- A decoded JSON value as produced by `json.loads` (numbers are kept
exact as rationals; the loudness values are only compared, never
computed with). -/
inductive PyJson where
  | null
  | bool (b : Bool)
  | num (q : Rat)
  | str (s : String)
  | arr (xs : List PyJson)
  | obj (kvs : List (String × PyJson))

/-- A Python exception arising inside the loudness parse attempt:
`caught` stands for the `(json.JSONDecodeError, ValueError)` pair that
the source handles, `uncaught` for anything else (message as `str(e)`). -/
inductive PErr where
  | caught
  | uncaught (msg : String)
  deriving DecidableEq

/-- Python decimal digit test. -/
def pyIsDigit (c : Char) : Bool := 48 ≤ c.toNat && c.toNat ≤ 57

/-- Numeric value of a list of decimal digit characters. -/
def digitsVal (l : List Char) : Nat :=
  l.foldl (fun a c => 10 * a + (c.toNat - 48)) 0

/-- Python whitespace test (the characters `float()` strips). -/
def pyIsSpace (c : Char) : Bool :=
  c = ' ' || c = '\t' || c = '\n' || c = '\x0d' || c = '\x0b' || c = '\x0c'

/-- Ten to a (possibly negative) power, as a rational. -/
def pow10 (i : Int) : Rat :=
  if 0 ≤ i then ((10 : Rat) ^ i.toNat) else 1 / ((10 : Rat) ^ (-i).toNat)

/-- Parse an optional exponent suffix (`e`/`E`, optional sign, digits).
Returns the exponent when the remaining input is consumed legally. -/
def pyFloatExp : List Char → Option Int
  | [] => some 0
  | e :: rest =>
    if e = 'e' || e = 'E' then
      match rest with
      | '+' :: ds => if ds ≠ [] && ds.all pyIsDigit then some (digitsVal ds) else none
      | '-' :: ds => if ds ≠ [] && ds.all pyIsDigit then some (-(digitsVal ds : Int)) else none
      | ds => if ds ≠ [] && ds.all pyIsDigit then some (digitsVal ds) else none
    else none

/-- Parse the unsigned body of a float literal: digits with an optional
fractional part, or a leading dot with digits, then an optional
exponent. -/
def pyFloatBody (l : List Char) : Option Rat :=
  let intPart := l.takeWhile pyIsDigit
  let rest1 := l.dropWhile pyIsDigit
  match rest1 with
  | '.' :: rest2 =>
    let fracPart := rest2.takeWhile pyIsDigit
    let rest3 := rest2.dropWhile pyIsDigit
    if intPart = [] && fracPart = [] then none
    else
      match pyFloatExp rest3 with
      | some e =>
        some (((digitsVal intPart : Rat) +
          (digitsVal fracPart : Rat) / (10 : Rat) ^ fracPart.length) * pow10 e)
      | none => none
  | rest =>
    if intPart = [] then none
    else
      match pyFloatExp rest with
      | some e => some ((digitsVal intPart : Rat) * pow10 e)
      | none => none

/-- Model of Python `float(str)` on decimal literals: strips surrounding
whitespace, accepts an optional sign; `inf`/`nan` spellings and digit
underscores are not modelled (never produced by the loudnorm filter). -/
def pyFloatOfString (s : String) : Option Rat :=
  let l := ((s.data.dropWhile pyIsSpace).reverse.dropWhile pyIsSpace).reverse
  match l with
  | '+' :: rest => pyFloatBody rest
  | '-' :: rest => (pyFloatBody rest).map (fun q => -q)
  | rest => pyFloatBody rest

/-- Model of Python `float()` applied to a decoded JSON value:
numbers and booleans convert, strings are parsed (`ValueError` when
malformed, which the source catches), anything else is a `TypeError`
(which the source does not catch). -/
def pyFloat : PyJson → Except PErr Rat
  | .num q => .ok q
  | .bool b => .ok (if b then 1 else 0)
  | .str s =>
    match pyFloatOfString s with
    | some q => .ok q
    | none => .error .caught
  | .null => .error (.uncaught "TypeError: float() argument must not be None")
  | .arr _ => .error (.uncaught "TypeError: float() argument must not be a list")
  | .obj _ => .error (.uncaught "TypeError: float() argument must not be a dict")

/-- Model of `value.get(key, default)`: an `AttributeError` (uncaught)
when the decoded JSON value is not a dict. -/
def pyDictGet (v : PyJson) (k : String) (dflt : PyJson) : Except PErr PyJson :=
  match v with
  | .obj kvs =>
    .ok (((kvs.find? (fun kv => kv.fst == k)).map Prod.snd).getD dflt)
  | _ => .error (.uncaught "AttributeError: object has no attribute get")

/-- Python `str.rfind(ch)`: highest index of the character, `-1` when
absent. -/
def pyRfind (s : String) (c : Char) : Int :=
  match s.data.reverse.findIdx? (fun x => x == c) with
  | none => -1
  | some j => ((s.data.length - 1 - j : Nat) : Int)

/-- Python slice `s[a:b]` for the non-negative indices the source uses. -/
def pySlice (s : String) (a b : Int) : String :=
  String.mk ((s.data.take b.toNat).drop a.toNat)

/-- Python slice `s[:n]` for non-negative `n`. -/
def pyTakeStr (n : Nat) (s : String) : String := String.mk (s.data.take n)

-- ===========================================================================
-- Data model (types from the handler source)
-- ===========================================================================

/-- Input payload from the RunPod job trigger (`JobInput`). -/
structure JobInput where
  mediaId : String
  creatorId : String
  type : String
  inputKey : String
  webhookUrl : String
  webhookSecret : String
  r2Endpoint : String
  r2AccessKeyId : String
  r2SecretAccessKey : String
  r2BucketName : String
  b2Endpoint : String
  b2AccessKeyId : String
  b2SecretAccessKey : String
  b2BucketName : String
  deriving DecidableEq

/-- Result payload sent via webhook (`TranscodingResult`). -/
structure TranscodingResult where
  status : String
  mediaId : String
  hlsMasterPlaylistKey : Option String
  hlsPreviewKey : Option String
  thumbnailKey : Option String
  waveformKey : Option String
  waveformImageKey : Option String
  mezzanineKey : Option String
  durationSeconds : Option Int
  width : Option Int
  height : Option Int
  readyVariants : List String
  error : Option String
  deriving DecidableEq

/-- Serialization of a `TranscodingResult` by `json.dumps` with default
options: keys in the insertion order of the dict literal in the source,
separators `", "` and `": "`, `ensure_ascii` escaping. -/
def pyJsonDumpsResult (r : TranscodingResult) : String :=
  "\x7b\"status\": " ++ pyJsonStr r.status ++
  ", \"mediaId\": " ++ pyJsonStr r.mediaId ++
  ", \"hlsMasterPlaylistKey\": " ++ pyJsonOptStr r.hlsMasterPlaylistKey ++
  ", \"hlsPreviewKey\": " ++ pyJsonOptStr r.hlsPreviewKey ++
  ", \"thumbnailKey\": " ++ pyJsonOptStr r.thumbnailKey ++
  ", \"waveformKey\": " ++ pyJsonOptStr r.waveformKey ++
  ", \"waveformImageKey\": " ++ pyJsonOptStr r.waveformImageKey ++
  ", \"mezzanineKey\": " ++ pyJsonOptStr r.mezzanineKey ++
  ", \"durationSeconds\": " ++ pyJsonOptInt r.durationSeconds ++
  ", \"width\": " ++ pyJsonOptInt r.width ++
  ", \"height\": " ++ pyJsonOptInt r.height ++
  ", \"readyVariants\": " ++ pyJsonStrList r.readyVariants ++
  ", \"error\": " ++ pyJsonOptStr r.error ++ "\x7d"

theorem allAscii_pyJsonDumpsResult (r : TranscodingResult) :
    allAscii (pyJsonDumpsResult r) = true := by
  unfold pyJsonDumpsResult
  simp only [allAscii_append, allAscii_pyJsonStr, allAscii_pyJsonOptStr,
    allAscii_pyJsonOptInt, allAscii_pyJsonStrList, Bool.and_true, Bool.true_and]
  decide

/-- One stream entry of the ffprobe report (`codec_type`, `width`,
`height`), as consumed by `get_media_info`. -/
structure PStream where
  codec_type : String
  width : Option Int
  height : Option Int
  deriving DecidableEq

/-- The probe report: the duration already carried through
`int(float(format.duration or 0))`, plus the stream list. -/
structure ProbeData where
  durationSeconds : Int
  streams : List PStream
  deriving DecidableEq

/-- Destination object store: R2 (delivery) or B2 (mezzanine archival). -/
inductive Store where
  | r2
  | b2
  deriving DecidableEq

/-- Loudness parameters returned by `analyze_loudness`. -/
structure LoudnessParams where
  input_i : Rat
  input_tp : Rat
  input_lra : Rat
  deriving DecidableEq

/-- The documented fallback loudness parameters. -/
def loudnessDefaults : LoudnessParams :=
  { input_i := -16, input_tp := -1, input_lra := 7 }

/-- Outcome of the loudness subprocess invocation: either
`TimeoutExpired` was raised (message as `str(e)`), or the process
completed with some exit status and diagnostic output (`check` is not
set, so a non-zero status does not raise). -/
inductive LoudnessRun where
  | timeout (msg : String)
  | completed (exitCode : Int) (stderr : String)

/-- Observable external actions of one handler invocation, in program
order. -/
inductive Event where
  | download (store : Store) (bucket : String) (key : String) (localPath : String)
  | probe
  | runMezzanine (cmd : List String)
  | runLoudness (cmd : List String)
  | runVariant (name : String) (cmd : List String)
  | runPreview (cmd : List String)
  | runThumbnail (cmd : List String)
  | runWaveform (cmd : List String)
  | upload (store : Store) (bucket : String) (key : String) (contentType : Option String)
  | webhook (url : String) (result : TranscodingResult) (signature : String)
  deriving DecidableEq

/-- Oracle for every external collaborator the handler talks to.  A
`none`/`.ok` outcome means the call succeeds; a `some msg` outcome means
the library call raises an exception whose `str` is `msg`. -/
structure Env where
  gpuAvailable : Bool
  workDir : String
  downloadFail : Option String
  probeOutcome : Except String ProbeData
  mezzanineFail : Option String
  loudnessRun : LoudnessRun
  jsonLoads : String → Except Unit PyJson
  variantFail : String → Option String
  segments : String → List String
  previewFail : Option String
  thumbnailFail : Option String
  waveformJsonFail : Option String
  waveformPngFail : Option String
  uploadFail : Store → String → Option String
  webhookFail : Nat → Option String
  hmacHex : List Nat → List Nat → String

/-- Return value of the handler toward the job runner:
`{"status": "success", "mediaId": ...}` or `{"status": "error",
"error": ...}`. -/
inductive HandlerRet where
  | success (mediaId : String)
  | error (errorMsg : String)
  deriving DecidableEq

-- ===========================================================================
-- FFmpeg configuration constants (from the source)
-- ===========================================================================

/-- Settings of one video HLS variant. -/
structure VSettings where
  height : Int
  video_bitrate : String
  audio_bitrate : String
  deriving DecidableEq

/-- Model of `HLS_VARIANTS`: resolution ladder in dict insertion order. -/
def HLS_VARIANTS : List (String × VSettings) :=
  [("1080p", ⟨1080, "5000k", "192k"⟩),
   ("720p", ⟨720, "3000k", "128k"⟩),
   ("480p", ⟨480, "1500k", "96k"⟩),
   ("360p", ⟨360, "800k", "64k"⟩)]

/-- Model of `AUDIO_VARIANTS`: audio-only ladder (name, audio bitrate). -/
def AUDIO_VARIANTS : List (String × String) :=
  [("128k", "128k"), ("64k", "64k")]

/-- Model of `PREVIEW_DURATION` (seconds). -/
def PREVIEW_DURATION : Int := 30

/-- Model of `PREVIEW_HEIGHT`. -/
def PREVIEW_HEIGHT : Int := 720

/-- Model of `HLS_SEGMENT_DURATION` (seconds). -/
def HLS_SEGMENT_DURATION : Int := 6

-- ===========================================================================
-- Path and string utilities used by the handler
-- ===========================================================================

/-- Model of `os.path.join` for the relative components the source uses. -/
def pjoin (a b : String) : String := a ++ "/" ++ b

/-- Python `str.endswith`. -/
def pyEndsWith (s suffix : String) : Bool :=
  decide (suffix.data = s.data.drop (s.data.length - suffix.data.length))

/-- Basename of a path (component after the last slash). -/
def pyBasename (s : String) : String :=
  String.mk ((s.data.reverse.takeWhile (fun c => c ≠ '/')).reverse)

/-- Extension part of `os.path.splitext`: the suffix of the basename
from its last dot, except that leading dots of the basename do not
start an extension. -/
def pySplitExtExt (path : String) : String :=
  let base := (pyBasename path).data
  let core := base.dropWhile (fun c => c = '.')
  if core.any (fun c => c = '.') then
    String.mk ('.' :: (core.reverse.takeWhile (fun c => c ≠ '.')).reverse)
  else ""

/-- Model of `int(bitrateString[:-1])`: numeric value of a bitrate constant such
as `"5000k"` with its unit letter removed (the source only applies this
to the canonical digit-and-k constants of the ladder tables). -/
def bitrateVal (s : String) : Int := (digitsVal s.data.dropLast : Int)

/-- Truthiness of `source_height` (`None` and `0` are falsy in Python). -/
def pyOptIntTruthy : Option Int → Bool
  | none => false
  | some n => n ≠ 0

/-- The argument following the given flag in a command list. -/
def pyArgAfter (flag : String) : List String → Option String
  | [] => none
  | [_] => none
  | a :: b :: rest => if a = flag then some b else pyArgAfter flag (b :: rest)

-- ===========================================================================
-- Subprocess command lines (verbatim from the source)
-- ===========================================================================

/-- Model of `ffmpeg` command of `create_mezzanine`. -/
def mezzanineCmd (useGpu : Bool) (inputPath outputPath : String) : List String :=
  if useGpu then
    ["ffmpeg", "-y", "-hwaccel", "cuda", "-i", inputPath, "-c:v", "h264_nvenc",
     "-preset", "p4", "-cq", "18", "-c:a", "aac", "-b:a", "256k", outputPath]
  else
    ["ffmpeg", "-y", "-i", inputPath, "-c:v", "libx264", "-preset", "slow",
     "-crf", "18", "-c:a", "aac", "-b:a", "256k", outputPath]

/-- Model of `ffmpeg` command of `analyze_loudness` (analysis pass, output
discarded). -/
def loudnessCmd (inputPath : String) : List String :=
  ["ffmpeg", "-i", inputPath, "-af",
   "loudnorm=I=-16:TP=-1.5:LRA=11:print_format=json", "-f", "null", "-"]

/-- Model of `ffmpeg` command of one video HLS variant encode. -/
def videoVariantCmd (useGpu : Bool) (inputPath variantDir playlistPath : String)
    (st : VSettings) : List String :=
  if useGpu then
    ["ffmpeg", "-y", "-hwaccel", "cuda", "-i", inputPath,
     "-vf", "scale=-2:" ++ pyIntRepr st.height,
     "-c:v", "h264_nvenc", "-preset", "p4", "-cq", "23",
     "-b:v", st.video_bitrate, "-maxrate", st.video_bitrate,
     "-bufsize", pyIntRepr (bitrateVal st.video_bitrate * 2) ++ "k",
     "-c:a", "aac", "-b:a", st.audio_bitrate,
     "-af", "loudnorm=I=-16:TP=-1.5:LRA=11",
     "-f", "hls", "-hls_time", pyIntRepr HLS_SEGMENT_DURATION,
     "-hls_playlist_type", "vod",
     "-hls_segment_filename", pjoin variantDir "segment_%03d.ts", playlistPath]
  else
    ["ffmpeg", "-y", "-i", inputPath,
     "-vf", "scale=-2:" ++ pyIntRepr st.height,
     "-c:v", "libx264", "-preset", "fast", "-crf", "23",
     "-b:v", st.video_bitrate, "-maxrate", st.video_bitrate,
     "-bufsize", pyIntRepr (bitrateVal st.video_bitrate * 2) ++ "k",
     "-c:a", "aac", "-b:a", st.audio_bitrate,
     "-af", "loudnorm=I=-16:TP=-1.5:LRA=11",
     "-f", "hls", "-hls_time", pyIntRepr HLS_SEGMENT_DURATION,
     "-hls_playlist_type", "vod",
     "-hls_segment_filename", pjoin variantDir "segment_%03d.ts", playlistPath]

/-- Model of `ffmpeg` command of one audio HLS variant encode. -/
def audioVariantCmd (inputPath variantDir playlistPath audioBitrate : String) :
    List String :=
  ["ffmpeg", "-y", "-i", inputPath, "-vn", "-c:a", "aac", "-b:a", audioBitrate,
   "-af", "loudnorm=I=-16:TP=-1.5:LRA=11",
   "-f", "hls", "-hls_time", pyIntRepr HLS_SEGMENT_DURATION,
   "-hls_playlist_type", "vod",
   "-hls_segment_filename", pjoin variantDir "segment_%03d.ts", playlistPath]

/-- Model of `ffmpeg` command of `create_preview` (note: no `-af` loudness filter
appears in either branch of the source). -/
def previewCmd (useGpu : Bool) (inputPath previewDir : String)
    (startTime previewDuration : Int) : List String :=
  if useGpu then
    ["ffmpeg", "-y", "-hwaccel", "cuda", "-ss", pyIntRepr startTime,
     "-i", inputPath, "-t", pyIntRepr previewDuration,
     "-vf", "scale=-2:" ++ pyIntRepr PREVIEW_HEIGHT,
     "-c:v", "h264_nvenc", "-preset", "p4", "-cq", "23",
     "-c:a", "aac", "-b:a", "128k",
     "-f", "hls", "-hls_time", pyIntRepr HLS_SEGMENT_DURATION,
     "-hls_playlist_type", "vod",
     "-hls_segment_filename", pjoin previewDir "segment_%03d.ts",
     pjoin previewDir "preview.m3u8"]
  else
    ["ffmpeg", "-y", "-ss", pyIntRepr startTime,
     "-i", inputPath, "-t", pyIntRepr previewDuration,
     "-vf", "scale=-2:" ++ pyIntRepr PREVIEW_HEIGHT,
     "-c:v", "libx264", "-preset", "fast", "-crf", "23",
     "-c:a", "aac", "-b:a", "128k",
     "-f", "hls", "-hls_time", pyIntRepr HLS_SEGMENT_DURATION,
     "-hls_playlist_type", "vod",
     "-hls_segment_filename", pjoin previewDir "segment_%03d.ts",
     pjoin previewDir "preview.m3u8"]

/-- Model of `ffmpeg` command of `extract_thumbnail`. -/
def thumbnailCmd (inputPath outputPath : String) (timestamp : Int) : List String :=
  ["ffmpeg", "-y", "-ss", pyIntRepr timestamp, "-i", inputPath,
   "-vframes", "1", "-q:v", "2", outputPath]

/-- Model of `audiowaveform` command producing the JSON peak document. -/
def waveformJsonCmd (inputPath jsonPath : String) : List String :=
  ["audiowaveform", "-i", inputPath, "-o", jsonPath,
   "--pixels-per-second", "10", "-b", "8"]

/-- Model of `audiowaveform` command producing the PNG image. -/
def waveformPngCmd (inputPath imagePath : String) : List String :=
  ["audiowaveform", "-i", inputPath, "-o", imagePath,
   "--width", "1800", "--height", "140", "--colors", "audition"]

-- ===========================================================================
-- Media analysis components
-- ===========================================================================

/-- Width and height of the first stream whose `codec_type` is
`"video"`; both `None` when there is none. -/
def firstVideoWH : List PStream → Option Int × Option Int
  | [] => (none, none)
  | s :: rest => if s.codec_type = "video" then (s.width, s.height) else firstVideoWH rest

/-- Model of `get_media_info`: duration, width, height from the probe report. -/
def get_media_info (p : ProbeData) : Int × Option Int × Option Int :=
  (p.durationSeconds, firstVideoWH p.streams)

/-- Model of `check_gpu_available` (capability oracle; exceptions inside the
source function are already folded into a `false` answer). -/
def check_gpu_available (env : Env) : Bool := env.gpuAvailable

/-- The `(json.JSONDecodeError, ValueError)`-guarded block of
`analyze_loudness`: decode the candidate block, then convert the three
values with `float`, defaulting absent keys to `-16`, `-1` and `7`. -/
def loudnessParseAttempt (env : Env) (slice : String) : Except PErr LoudnessParams :=
  match env.jsonLoads slice with
  | .error _ => .error .caught
  | .ok v => do
    let vi ← pyFloat (← pyDictGet v "input_i" (.num (-16)))
    let vtp ← pyFloat (← pyDictGet v "input_tp" (.num (-1)))
    let vlra ← pyFloat (← pyDictGet v "input_lra" (.num (7)))
    return { input_i := vi, input_tp := vtp, input_lra := vlra }

/-- Model of `analyze_loudness`: runs the measurement pass without `check`, so a
non-zero exit status is ignored, but `TimeoutExpired` propagates; then
parses the last brace-delimited block of the diagnostic output, falling
back to the defaults when the guarded block raises a handled error or
when no candidate block exists. -/
def analyze_loudness (env : Env) : Except String LoudnessParams :=
  match env.loudnessRun with
  | .timeout msg => .error msg
  | .completed _exitCode output =>
    let json_start := pyRfind output '\x7b'
    let json_end := pyRfind output '\x7d' + 1
    if json_start ≥ 0 ∧ json_end > json_start then
      match loudnessParseAttempt env (pySlice output json_start json_end) with
      | .ok p => .ok p
      | .error .caught => .ok loudnessDefaults
      | .error (.uncaught m) => .error m
    else .ok loudnessDefaults

-- ===========================================================================
-- Rendition ladder encoders
-- ===========================================================================

/-- Skip test of the ladder loop: `if source_height and
settings["height"] > source_height` (Python truthiness: skipping is
considered only when the probed height is neither `None` nor `0`). -/
def skipVariant (sourceHeight : Option Int) (variantHeight : Int) : Bool :=
  pyOptIntTruthy sourceHeight && decide (variantHeight > sourceHeight.getD 0)

/-- Master playlist written by `transcode_video_hls`: bandwidth from the
declared bitrate, resolution from the 16:9 assumption
(`int(height * 16 / 9)`, modelled by exact truncating division, which
agrees with the float computation on the ladder heights). -/
def masterPlaylistVideo (entries : List (String × VSettings)) : String :=
  "#EXTM3U\n#EXT-X-VERSION:3\n" ++
    (entries.map (fun e =>
      "#EXT-X-STREAM-INF:BANDWIDTH=" ++ pyIntRepr (bitrateVal e.2.video_bitrate * 1000) ++
      ",RESOLUTION=" ++ pyIntRepr (Int.tdiv (e.2.height * 16) 9) ++ "x" ++
      pyIntRepr e.2.height ++ "\n" ++ e.1 ++ "/index.m3u8\n")).foldl (· ++ ·) ""

/-- Master playlist written by `transcode_audio_hls`. -/
def masterPlaylistAudio (entries : List (String × String)) : String :=
  "#EXTM3U\n#EXT-X-VERSION:3\n" ++
    (entries.map (fun e =>
      "#EXT-X-STREAM-INF:BANDWIDTH=" ++ pyIntRepr (bitrateVal e.2 * 1000) ++
      "\n" ++ e.1 ++ "/index.m3u8\n")).foldl (· ++ ·) ""

/-- The ladder loop of `transcode_video_hls`: returns the encoded
`(name, settings)` pairs (the `variant_playlists` accumulator) and the
relative paths of the files the encodes leave in the output directory
(playlist plus segments, segment names chosen by the encoder oracle). -/
def runVideoVariants (env : Env) (inputPath outputDir : String)
    (sourceHeight : Option Int) (useGpu : Bool) :
    List (String × VSettings) → Except String (List (String × VSettings) × List String) × List Event
  | [] => (.ok ([], []), [])
  | (name, st) :: rest =>
    if skipVariant sourceHeight st.height then
      runVideoVariants env inputPath outputDir sourceHeight useGpu rest
    else
      let variantDir := pjoin outputDir name
      let playlistPath := pjoin variantDir "index.m3u8"
      let cmd := videoVariantCmd useGpu inputPath variantDir playlistPath st
      match env.variantFail name with
      | some m => (.error m, [.runVariant name cmd])
      | none =>
        let files := pjoin name "index.m3u8" :: (env.segments name).map (pjoin name)
        match runVideoVariants env inputPath outputDir sourceHeight useGpu rest with
        | (.ok (encoded, fs), evs) =>
          (.ok ((name, st) :: encoded, files ++ fs), .runVariant name cmd :: evs)
        | (.error m, evs) => (.error m, .runVariant name cmd :: evs)

/-- Model of `transcode_video_hls`: encode the ladder (skipping entries above the
source height), then write the master playlist.  Returns
`(readyVariants, files left in the output directory)`. -/
def transcode_video_hls (env : Env) (inputPath outputDir : String)
    (sourceHeight : Option Int) (useGpu : Bool) :
    Except String (List String × List String) × List Event :=
  match runVideoVariants env inputPath outputDir sourceHeight useGpu HLS_VARIANTS with
  | (.error m, evs) => (.error m, evs)
  | (.ok (encoded, fs), evs) =>
    (.ok (encoded.map Prod.fst, fs ++ ["master.m3u8"]), evs)

/-- The ladder loop of `transcode_audio_hls` (no skip test). -/
def runAudioVariants (env : Env) (inputPath outputDir : String) :
    List (String × String) → Except String (List (String × String) × List String) × List Event
  | [] => (.ok ([], []), [])
  | (name, br) :: rest =>
    let variantDir := pjoin outputDir name
    let playlistPath := pjoin variantDir "index.m3u8"
    let cmd := audioVariantCmd inputPath variantDir playlistPath br
    match env.variantFail name with
    | some m => (.error m, [.runVariant name cmd])
    | none =>
      let files := pjoin name "index.m3u8" :: (env.segments name).map (pjoin name)
      match runAudioVariants env inputPath outputDir rest with
      | (.ok (encoded, fs), evs) =>
        (.ok ((name, br) :: encoded, files ++ fs), .runVariant name cmd :: evs)
      | (.error m, evs) => (.error m, .runVariant name cmd :: evs)

/-- Model of `transcode_audio_hls`. -/
def transcode_audio_hls (env : Env) (inputPath outputDir : String) :
    Except String (List String × List String) × List Event :=
  match runAudioVariants env inputPath outputDir AUDIO_VARIANTS with
  | (.error m, evs) => (.error m, evs)
  | (.ok (encoded, fs), evs) =>
    (.ok (encoded.map Prod.fst, fs ++ ["master.m3u8"]), evs)

-- ===========================================================================
-- Preview, thumbnail, waveform
-- ===========================================================================

/-- Model of `create_preview`: clip start `max(0, int(duration * 0.1))` and
length `min(PREVIEW_DURATION, duration - start)`; the float product is
modelled by exact truncating division by ten. -/
def create_preview (env : Env) (inputPath outputDir : String) (duration : Int)
    (useGpu : Bool) : Except String Unit × List Event :=
  let previewDir := pjoin outputDir "preview"
  let start_time := max 0 (Int.tdiv duration 10)
  let preview_duration := min PREVIEW_DURATION (duration - start_time)
  let cmd := previewCmd useGpu inputPath previewDir start_time preview_duration
  (match env.previewFail with
   | some m => .error m
   | none => .ok (), [.runPreview cmd])

/-- Model of `extract_thumbnail`: still frame at `max(1, int(duration * 0.1))`. -/
def extract_thumbnail (env : Env) (inputPath outputPath : String) (duration : Int) :
    Except String Unit × List Event :=
  let timestamp := max 1 (Int.tdiv duration 10)
  let cmd := thumbnailCmd inputPath outputPath timestamp
  (match env.thumbnailFail with
   | some m => .error m
   | none => .ok (), [.runThumbnail cmd])

/-- Model of `generate_waveform`: the JSON document pass, then the PNG pass; a
failure of the first prevents the second. -/
def generate_waveform (env : Env) (inputPath jsonPath imagePath : String) :
    Except String Unit × List Event :=
  let cj := waveformJsonCmd inputPath jsonPath
  let cp := waveformPngCmd inputPath imagePath
  match env.waveformJsonFail with
  | some m => (.error m, [.runWaveform cj])
  | none =>
    match env.waveformPngFail with
    | some m => (.error m, [.runWaveform cj, .runWaveform cp])
    | none => (.ok (), [.runWaveform cj, .runWaveform cp])

-- ===========================================================================
-- Storage operations
-- ===========================================================================

/-- Model of `download_file` from S3-compatible storage. -/
def download_file (env : Env) (store : Store) (bucket key localPath : String) :
    Except String Unit × List Event :=
  (match env.downloadFail with
   | some m => .error m
   | none => .ok (), [.download store bucket key localPath])

/-- Model of `probe_media` followed by JSON decoding of its stdout (the probed
report is an oracle; `check=True` failures and decode failures surface
as the error message). -/
def probe_media (env : Env) : Except String ProbeData × List Event :=
  (env.probeOutcome, [.probe])

/-- Model of `upload_file` to S3-compatible storage. -/
def upload_file (env : Env) (store : Store) (bucket key : String)
    (contentType : Option String) : Except String Unit × List Event :=
  (match env.uploadFail store key with
   | some m => .error m
   | none => .ok (), [.upload store bucket key contentType])

/-- Content type chosen by `upload_directory` from the file name's
extension. -/
def contentTypeFor (filename : String) : Option String :=
  if pyEndsWith filename ".m3u8" then some "application/vnd.apple.mpegurl"
  else if pyEndsWith filename ".ts" then some "video/MP2T"
  else if pyEndsWith filename ".json" then some "application/json"
  else if pyEndsWith filename ".png" then some "image/png"
  else if pyEndsWith filename ".jpg" || pyEndsWith filename ".jpeg" then some "image/jpeg"
  else none

/-- Model of `upload_directory`: upload every file under the directory (given as
relative paths), key = prefix concatenated with the relative path; the
first failing upload raises. -/
def upload_directory (env : Env) (store : Store) (bucket keyRoot : String) :
    List String → Except String Unit × List Event
  | [] => (.ok (), [])
  | f :: rest =>
    let key := keyRoot ++ f
    let ct := contentTypeFor (pyBasename f)
    match env.uploadFail store key with
    | some m => (.error m, [.upload store bucket key ct])
    | none =>
      match upload_directory env store bucket keyRoot rest with
      | (res, evs) => (res, .upload store bucket key ct :: evs)

-- ===========================================================================
-- Webhook
-- ===========================================================================

/-- Model of `sign_payload`: HMAC-SHA256 (hex digest, oracle `hmacHex`) keyed by
the UTF-8 bytes of the secret over the UTF-8 bytes of the payload. -/
def sign_payload (env : Env) (payload secret : String) : String :=
  env.hmacHex (utf8Encode secret) (utf8Encode payload)

/-- Model of `send_webhook`: serialize the result with `json.dumps`, sign it,
POST it (delivery outcome per attempt index from the oracle;
`raise_for_status` turns a non-2xx answer into an exception). -/
def send_webhook (env : Env) (attempt : Nat) (url secret : String)
    (result : TranscodingResult) : Except String Unit × Event :=
  let payload := pyJsonDumpsResult result
  let signature := sign_payload env payload secret
  (match env.webhookFail attempt with
   | some m => .error m
   | none => .ok (), .webhook url result signature)

-- ===========================================================================
-- The handler (orchestrator)
-- ===========================================================================

/-- Sequencing of two pipeline steps: an exception aborts the rest, the
emitted events accumulate in program order. -/
def andThen {α β : Type} (a : Except String α × List Event)
    (f : α → Except String β × List Event) : Except String β × List Event :=
  match a with
  | (.error m, evs) => (.error m, evs)
  | (.ok x, evs) =>
    match f x with
    | (r, evs2) => (r, evs ++ evs2)

/-- Model of `create_mezzanine` invocation (event plus oracle outcome). -/
def create_mezzanine (env : Env) (inputPath outputPath : String) (useGpu : Bool) :
    Except String Unit × List Event :=
  (match env.mezzanineFail with
   | some m => .error m
   | none => .ok (), [.runMezzanine (mezzanineCmd useGpu inputPath outputPath)])

/-- Step 3 of the handler: mezzanine encode and B2 upload for video,
`mezzanine_key = None` otherwise. -/
def stepMezzanine (env : Env) (j : JobInput) (inputPath mezzaninePath : String)
    (useGpu : Bool) : Except String (Option String) × List Event :=
  let mezzanine_key := j.creatorId ++ "/mezzanine/" ++ j.mediaId ++ "/mezzanine.mp4"
  if j.type = "video" then
    andThen (create_mezzanine env inputPath mezzaninePath useGpu) fun _ =>
    andThen (upload_file env .b2 j.b2BucketName mezzanine_key (some "video/mp4")) fun _ =>
    (.ok (some mezzanine_key), [])
  else (.ok none, [])

/-- Step 4: loudness analysis (its value is bound but never used by any
later stage of the source). -/
def stepLoudness (env : Env) (inputPath : String) :
    Except String LoudnessParams × List Event :=
  (analyze_loudness env, [.runLoudness (loudnessCmd inputPath)])

/-- Step 5: the media-type-selected rendition ladder. -/
def stepLadder (env : Env) (j : JobInput) (inputPath hlsDir : String)
    (height : Option Int) (useGpu : Bool) :
    Except String (List String × List String) × List Event :=
  if j.type = "video" then transcode_video_hls env inputPath hlsDir height useGpu
  else transcode_audio_hls env inputPath hlsDir

/-- Step 6: preview, only for video with positive duration. -/
def stepPreview (env : Env) (j : JobInput) (inputPath hlsDir : String)
    (duration : Int) (useGpu : Bool) : Except String Unit × List Event :=
  if j.type = "video" ∧ duration > 0 then
    create_preview env inputPath hlsDir duration useGpu
  else (.ok (), [])

/-- Step 7: thumbnail extraction and upload, only for video with
positive duration. -/
def stepThumbnail (env : Env) (j : JobInput) (inputPath workDir : String)
    (duration : Int) : Except String (Option String) × List Event :=
  if j.type = "video" ∧ duration > 0 then
    let thumbnail_path := pjoin workDir "thumbnail.jpg"
    let key := j.creatorId ++ "/thumbnails/" ++ j.mediaId ++ "/auto-generated.jpg"
    andThen (extract_thumbnail env inputPath thumbnail_path duration) fun _ =>
    andThen (upload_file env .r2 j.r2BucketName key (some "image/jpeg")) fun _ =>
    (.ok (some key), [])
  else (.ok none, [])

/-- Step 8: waveform generation and uploads, only when the media type is
exactly `"audio"`. -/
def stepWaveform (env : Env) (j : JobInput) (inputPath workDir : String) :
    Except String (Option String × Option String) × List Event :=
  if j.type = "audio" then
    let jsonPath := pjoin workDir "waveform.json"
    let pngPath := pjoin workDir "waveform.png"
    let waveform_key := j.creatorId ++ "/waveforms/" ++ j.mediaId ++ "/waveform.json"
    let waveform_image_key := j.creatorId ++ "/waveforms/" ++ j.mediaId ++ "/waveform.png"
    andThen (generate_waveform env inputPath jsonPath pngPath) fun _ =>
    andThen (upload_file env .r2 j.r2BucketName waveform_key (some "application/json")) fun _ =>
    andThen (upload_file env .r2 j.r2BucketName waveform_image_key (some "image/png")) fun _ =>
    (.ok (some waveform_key, some waveform_image_key), [])
  else (.ok (none, none), [])

/-- A `send_webhook` call as a pipeline step. -/
def stepSendWebhook (env : Env) (attempt : Nat) (url secret : String)
    (result : TranscodingResult) : Except String Unit × List Event :=
  match send_webhook env attempt url secret result with
  | (r, ev) => (r, [ev])

/-- The body of the handler's `try` block (steps 1 through 10); `.ok`
carries the completed result after its webhook delivery succeeded. -/
def tryBody (env : Env) (j : JobInput) : Except String TranscodingResult × List Event :=
  let use_gpu := check_gpu_available env
  let work_dir := env.workDir
  let ext0 := pySplitExtExt j.inputKey
  let input_ext := if ext0 = "" then ".mp4" else ext0
  let input_path := pjoin work_dir ("input" ++ input_ext)
  andThen (download_file env .r2 j.r2BucketName j.inputKey input_path) fun _ =>
  andThen (probe_media env) fun probe_data =>
  let mi := get_media_info probe_data
  let duration := mi.1
  let width := mi.2.1
  let height := mi.2.2
  let mezzanine_path := pjoin work_dir "mezzanine.mp4"
  andThen (stepMezzanine env j input_path mezzanine_path use_gpu) fun mezzanine_key =>
  andThen (stepLoudness env input_path) fun _loudness =>
  let hls_dir := pjoin work_dir "hls"
  andThen (stepLadder env j input_path hls_dir height use_gpu) fun rf =>
  let hls_key_root := j.creatorId ++ "/hls/" ++ j.mediaId ++ "/"
  andThen (upload_directory env .r2 j.r2BucketName hls_key_root rf.2) fun _ =>
  let hls_master_key := hls_key_root ++ "master.m3u8"
  let hls_preview_key :=
    if j.type = "video" then some (hls_key_root ++ "preview/preview.m3u8") else none
  andThen (stepPreview env j input_path hls_dir duration use_gpu) fun _ =>
  andThen (stepThumbnail env j input_path work_dir duration) fun thumbnail_key =>
  andThen (stepWaveform env j input_path work_dir) fun wf =>
  let result : TranscodingResult :=
    { status := "completed"
      mediaId := j.mediaId
      hlsMasterPlaylistKey := some hls_master_key
      hlsPreviewKey := hls_preview_key
      thumbnailKey := thumbnail_key
      waveformKey := wf.1
      waveformImageKey := wf.2
      mezzanineKey := mezzanine_key
      durationSeconds := some duration
      width := width
      height := height
      readyVariants := rf.1
      error := none }
  andThen (stepSendWebhook env 0 j.webhookUrl j.webhookSecret result) fun _ =>
  (.ok result, [])

/-- The failure payload built in the `except` branch: every artifact
field `None`, the error message truncated to its first 2000 characters
(`error_msg[:2000]`). -/
def failedResult (mediaId errorMsg : String) : TranscodingResult :=
  { status := "failed"
    mediaId := mediaId
    hlsMasterPlaylistKey := none
    hlsPreviewKey := none
    thumbnailKey := none
    waveformKey := none
    waveformImageKey := none
    mezzanineKey := none
    durationSeconds := none
    width := none
    height := none
    readyVariants := []
    error := some (pyTakeStr 2000 errorMsg) }

/-- Number of webhook deliveries already attempted in a trace. -/
def countWebhookEvents (evs : List Event) : Nat :=
  evs.countP (fun e => match e with
    | .webhook _ _ _ => true
    | _ => false)

/-- Model of `handler`: run the `try` body; on success acknowledge with
`{"status": "success"}`; on any exception build the failure payload,
attempt one failure webhook whose own failure is swallowed, and return
`{"status": "error"}` with the untruncated message.  The `finally`
cleanup of the working directory has no observable effect modelled
here. -/
def handler (env : Env) (j : JobInput) : HandlerRet × List Event :=
  match tryBody env j with
  | (.ok _r, evs) => (.success j.mediaId, evs)
  | (.error msg, evs) =>
    let result := failedResult j.mediaId msg
    match send_webhook env (countWebhookEvents evs) j.webhookUrl j.webhookSecret result with
    | (_, ev) => (.error msg, evs ++ [ev])

-- ===========================================================================
-- Trace observations
-- ===========================================================================

/-- Webhook-attempt test on an event. -/
def isWebhookEvent : Event → Bool
  | .webhook _ _ _ => true
  | _ => false

/-- Preview-encode test on an event. -/
def isRunPreviewEvent : Event → Bool
  | .runPreview _ => true
  | _ => false

/-- Thumbnail-extraction test on an event. -/
def isRunThumbnailEvent : Event → Bool
  | .runThumbnail _ => true
  | _ => false

/-- Results carried by the webhook deliveries of a trace, in order. -/
def webhookResults (evs : List Event) : List TranscodingResult :=
  evs.filterMap (fun e => match e with
    | .webhook _ r _ => some r
    | _ => none)

/-- Keys of all object-store uploads of a trace, in order. -/
def uploadedKeys (evs : List Event) : List String :=
  evs.filterMap (fun e => match e with
    | .upload _ _ k _ => some k
    | _ => none)

/-- Commands of all preview encodes of a trace. -/
def previewCmds (evs : List Event) : List (List String) :=
  evs.filterMap (fun e => match e with
    | .runPreview c => some c
    | _ => none)

/-- Commands of all rendition-ladder encodes of a trace. -/
def variantCmds (evs : List Event) : List (List String) :=
  evs.filterMap (fun e => match e with
    | .runVariant _ c => some c
    | _ => none)

theorem countWebhookEvents_eq (evs : List Event) :
    countWebhookEvents evs = evs.countP isWebhookEvent := rfl

/-- Model of `Except` success test. -/
def isOkB {α : Type} : Except String α → Bool
  | .ok _ => true
  | .error _ => false

theorem exists_ok_of_isOkB {α : Type} (e : Except String α)
    (h : isOkB e = true) : ∃ x, e = .ok x := by
  cases e with
  | ok x => exact ⟨x, rfl⟩
  | error m => simp [isOkB] at h

-- ===========================================================================
-- Closed forms of the pipeline stages when every oracle cooperates
-- ===========================================================================

/-- The ladder entries the source keeps (complement of the skip test),
in declared order. -/
def ladderSelect (sh : Option Int) (l : List (String × VSettings)) :
    List (String × VSettings) :=
  l.filter (fun e => !(skipVariant sh e.2.height))

theorem andThen_error {α β : Type} (m : String) (evs : List Event)
    (f : α → Except String β × List Event) :
    andThen (.error m, evs) f = (.error m, evs) := rfl

theorem andThen_ok {α β : Type} (x : α) (evs : List Event)
    (f : α → Except String β × List Event) :
    andThen (.ok x, evs) f = ((f x).1, evs ++ (f x).2) := by
  unfold andThen
  rcases hfx : f x with ⟨r, evs2⟩
  simp [hfx]

theorem runVideoVariants_ok {env : Env}
    (hv : ∀ v, env.variantFail v = none) (ip od : String) (sh : Option Int)
    (gpu : Bool) (l : List (String × VSettings)) :
    runVideoVariants env ip od sh gpu l =
      (.ok (ladderSelect sh l,
        ((ladderSelect sh l).map
          (fun e => pjoin e.1 "index.m3u8" :: (env.segments e.1).map (pjoin e.1))).flatten),
       (ladderSelect sh l).map (fun e =>
        .runVariant e.1 (videoVariantCmd gpu ip (pjoin od e.1)
          (pjoin (pjoin od e.1) "index.m3u8") e.2))) := by
  induction l with
  | nil => simp [runVideoVariants, ladderSelect]
  | cons hd tl ih =>
    rcases hd with ⟨name, st⟩
    by_cases hs : skipVariant sh st.height = true
    · simp [runVideoVariants, hs, ladderSelect, ih]
    · have hs' : skipVariant sh st.height = false := by
        exact Bool.eq_false_iff.mpr hs
      simp only [runVideoVariants, hs', Bool.false_eq_true, if_false]
      rw [hv name]
      simp only [ih]
      simp [ladderSelect, hs', List.filter_cons]

theorem runAudioVariants_ok {env : Env}
    (hv : ∀ v, env.variantFail v = none) (ip od : String)
    (l : List (String × String)) :
    runAudioVariants env ip od l =
      (.ok (l, (l.map
          (fun e => pjoin e.1 "index.m3u8" :: (env.segments e.1).map (pjoin e.1))).flatten),
       l.map (fun e =>
        .runVariant e.1 (audioVariantCmd ip (pjoin od e.1)
          (pjoin (pjoin od e.1) "index.m3u8") e.2))) := by
  induction l with
  | nil => simp [runAudioVariants]
  | cons hd tl ih =>
    rcases hd with ⟨name, br⟩
    simp only [runAudioVariants]
    rw [hv name]
    simp only [ih]
    simp

theorem upload_directory_ok {env : Env} {store : Store}
    (hu : ∀ k, env.uploadFail store k = none) (bucket keyRoot : String)
    (files : List String) :
    upload_directory env store bucket keyRoot files =
      (.ok (), files.map (fun f =>
        .upload store bucket (keyRoot ++ f) (contentTypeFor (pyBasename f)))) := by
  induction files with
  | nil => simp [upload_directory]
  | cons f rest ih =>
    simp only [upload_directory]
    rw [hu (keyRoot ++ f)]
    simp only [ih]
    simp

-- ===========================================================================
-- Closed form of a fully successful pipeline run
-- ===========================================================================

/-- The local path the original is downloaded to. -/
def inputPathOf (env : Env) (j : JobInput) : String :=
  pjoin env.workDir
    ("input" ++ (if pySplitExtExt j.inputKey = "" then ".mp4" else pySplitExtExt j.inputKey))

/-- The delivery-store key root of the job's HLS tree. -/
def hlsRootOf (j : JobInput) : String :=
  j.creatorId ++ "/hls/" ++ j.mediaId ++ "/"

/-- Files a fully successful video ladder leaves in the HLS directory. -/
def videoSuccessFiles (env : Env) (sh : Option Int) : List String :=
  ((ladderSelect sh HLS_VARIANTS).map
    (fun e => pjoin e.1 "index.m3u8" :: (env.segments e.1).map (pjoin e.1))).flatten ++
    ["master.m3u8"]

/-- Files a fully successful audio ladder leaves in the HLS directory. -/
def audioSuccessFiles (env : Env) : List String :=
  (AUDIO_VARIANTS.map
    (fun e => pjoin e.1 "index.m3u8" :: (env.segments e.1).map (pjoin e.1))).flatten ++
    ["master.m3u8"]

/-- Encode events of a fully successful video ladder. -/
def videoLadderEvents (env : Env) (ip hlsDir : String) (sh : Option Int) : List Event :=
  (ladderSelect sh HLS_VARIANTS).map (fun e =>
    .runVariant e.1 (videoVariantCmd env.gpuAvailable ip (pjoin hlsDir e.1)
      (pjoin (pjoin hlsDir e.1) "index.m3u8") e.2))

/-- Encode events of a fully successful audio ladder. -/
def audioLadderEvents (ip hlsDir : String) : List Event :=
  AUDIO_VARIANTS.map (fun e =>
    .runVariant e.1 (audioVariantCmd ip (pjoin hlsDir e.1)
      (pjoin (pjoin hlsDir e.1) "index.m3u8") e.2))

/-- Upload events of the HLS directory publication. -/
def hlsUploadEvents (j : JobInput) (files : List String) : List Event :=
  files.map (fun f =>
    .upload .r2 j.r2BucketName (hlsRootOf j ++ f) (contentTypeFor (pyBasename f)))

/-- The completed result the handler builds when every stage succeeds. -/
def successResult (j : JobInput) (pd : ProbeData) : TranscodingResult :=
  { status := "completed"
    mediaId := j.mediaId
    hlsMasterPlaylistKey := some (hlsRootOf j ++ "master.m3u8")
    hlsPreviewKey :=
      if j.type = "video" then some (hlsRootOf j ++ "preview/preview.m3u8") else none
    thumbnailKey :=
      if j.type = "video" ∧ pd.durationSeconds > 0 then
        some (j.creatorId ++ "/thumbnails/" ++ j.mediaId ++ "/auto-generated.jpg")
      else none
    waveformKey :=
      if j.type = "audio" then
        some (j.creatorId ++ "/waveforms/" ++ j.mediaId ++ "/waveform.json")
      else none
    waveformImageKey :=
      if j.type = "audio" then
        some (j.creatorId ++ "/waveforms/" ++ j.mediaId ++ "/waveform.png")
      else none
    mezzanineKey :=
      if j.type = "video" then
        some (j.creatorId ++ "/mezzanine/" ++ j.mediaId ++ "/mezzanine.mp4")
      else none
    durationSeconds := some pd.durationSeconds
    width := (firstVideoWH pd.streams).1
    height := (firstVideoWH pd.streams).2
    readyVariants :=
      if j.type = "video" then
        (ladderSelect (firstVideoWH pd.streams).2 HLS_VARIANTS).map Prod.fst
      else AUDIO_VARIANTS.map Prod.fst
    error := none }

/-- The full event trace of the `try` body when every stage succeeds,
up to but not including the completion webhook. -/
def successEvents (env : Env) (j : JobInput) (pd : ProbeData) : List Event :=
  [.download .r2 j.r2BucketName j.inputKey (inputPathOf env j), .probe] ++
  (if j.type = "video" then
    [.runMezzanine (mezzanineCmd env.gpuAvailable (inputPathOf env j)
       (pjoin env.workDir "mezzanine.mp4")),
     .upload .b2 j.b2BucketName
       (j.creatorId ++ "/mezzanine/" ++ j.mediaId ++ "/mezzanine.mp4") (some "video/mp4")]
   else []) ++
  [.runLoudness (loudnessCmd (inputPathOf env j))] ++
  (if j.type = "video" then
    videoLadderEvents env (inputPathOf env j) (pjoin env.workDir "hls")
      (firstVideoWH pd.streams).2
   else audioLadderEvents (inputPathOf env j) (pjoin env.workDir "hls")) ++
  hlsUploadEvents j
    (if j.type = "video" then videoSuccessFiles env (firstVideoWH pd.streams).2
     else audioSuccessFiles env) ++
  (if j.type = "video" ∧ pd.durationSeconds > 0 then
    [.runPreview (previewCmd env.gpuAvailable (inputPathOf env j)
       (pjoin (pjoin env.workDir "hls") "preview")
       (max 0 (Int.tdiv pd.durationSeconds 10))
       (min PREVIEW_DURATION (pd.durationSeconds - max 0 (Int.tdiv pd.durationSeconds 10))))]
   else []) ++
  (if j.type = "video" ∧ pd.durationSeconds > 0 then
    [.runThumbnail (thumbnailCmd (inputPathOf env j) (pjoin env.workDir "thumbnail.jpg")
       (max 1 (Int.tdiv pd.durationSeconds 10))),
     .upload .r2 j.r2BucketName
       (j.creatorId ++ "/thumbnails/" ++ j.mediaId ++ "/auto-generated.jpg")
       (some "image/jpeg")]
   else []) ++
  (if j.type = "audio" then
    [.runWaveform (waveformJsonCmd (inputPathOf env j) (pjoin env.workDir "waveform.json")),
     .runWaveform (waveformPngCmd (inputPathOf env j) (pjoin env.workDir "waveform.png")),
     .upload .r2 j.r2BucketName
       (j.creatorId ++ "/waveforms/" ++ j.mediaId ++ "/waveform.json")
       (some "application/json"),
     .upload .r2 j.r2BucketName
       (j.creatorId ++ "/waveforms/" ++ j.mediaId ++ "/waveform.png")
       (some "image/png")]
   else [])

theorem tryBody_ok (env : Env) (j : JobInput) (pd : ProbeData)
    (hdl : env.downloadFail = none)
    (hp : env.probeOutcome = .ok pd)
    (hm : env.mezzanineFail = none)
    (hl : isOkB (analyze_loudness env) = true)
    (hv : ∀ v, env.variantFail v = none)
    (hu : ∀ s k, env.uploadFail s k = none)
    (hpr : env.previewFail = none)
    (hth : env.thumbnailFail = none)
    (hwj : env.waveformJsonFail = none)
    (hwp : env.waveformPngFail = none) :
    tryBody env j =
      ((match env.webhookFail 0 with
        | none => Except.ok (successResult j pd)
        | some m => Except.error m),
       successEvents env j pd ++
         [Event.webhook j.webhookUrl (successResult j pd)
           (sign_payload env (pyJsonDumpsResult (successResult j pd)) j.webhookSecret)]) := by
  obtain ⟨lp, hlp⟩ := exists_ok_of_isOkB _ hl
  by_cases hvt : j.type = "video"
  · have hna : ¬(j.type = "audio") := by rw [hvt]; decide
    by_cases hd0 : pd.durationSeconds > 0
    all_goals (
      rcases hwf : env.webhookFail 0 with _ | m <;>
      simp [tryBody, andThen_ok, andThen_error, download_file, hdl, probe_media, hp,
        check_gpu_available, get_media_info, stepMezzanine, hvt, hna, create_mezzanine, hm, upload_file, hu,
        stepLoudness, hlp, stepLadder, transcode_video_hls, runVideoVariants_ok hv,
        upload_directory_ok (hu Store.r2), stepPreview, hd0, create_preview, hpr,
        stepThumbnail, extract_thumbnail, hth, stepWaveform, generate_waveform, hwj, hwp,
        stepSendWebhook, send_webhook, hwf, successEvents, successResult, inputPathOf,
        hlsRootOf, videoLadderEvents, videoSuccessFiles, hlsUploadEvents])
  · by_cases hau : j.type = "audio"
    all_goals (
      rcases hwf : env.webhookFail 0 with _ | m <;>
      simp [tryBody, andThen_ok, andThen_error, download_file, hdl, probe_media, hp,
        check_gpu_available, get_media_info, stepMezzanine, hvt, hau, upload_file, hu,
        stepLoudness, hlp, stepLadder, transcode_audio_hls, runAudioVariants_ok hv,
        upload_directory_ok (hu Store.r2), stepPreview,
        stepThumbnail, stepWaveform, generate_waveform, hwj, hwp,
        stepSendWebhook, send_webhook, hwf, successEvents, successResult, inputPathOf,
        hlsRootOf, audioLadderEvents, audioSuccessFiles, hlsUploadEvents])

theorem countP_successEvents_zero (env : Env) (j : JobInput) (pd : ProbeData)
    (p : Event → Bool)
    (h1 : ∀ s b k l, p (.download s b k l) = false)
    (h2 : p .probe = false)
    (h3 : ∀ c, p (.runMezzanine c) = false)
    (h4 : ∀ c, p (.runLoudness c) = false)
    (h5 : ∀ n c, p (.runVariant n c) = false)
    (h7 : ∀ c, p (.runThumbnail c) = false)
    (h8 : ∀ c, p (.runWaveform c) = false)
    (h9 : ∀ s b k ct, p (.upload s b k ct) = false)
    (h6 : ∀ c, p (.runPreview c) = false) :
    (successEvents env j pd).countP p = 0 := by
  by_cases hvt : j.type = "video" <;>
  by_cases hd0 : pd.durationSeconds > 0 <;>
  by_cases hau : j.type = "audio" <;>
  simp [successEvents, List.countP_append, hvt, hd0, hau,
    List.countP_cons, List.countP_map, videoLadderEvents, audioLadderEvents,
    hlsUploadEvents, List.countP_eq_zero, h1, h2, h3, h4, h5, h6, h7, h8, h9,
    Function.comp]

theorem countWebhook_successEvents (env : Env) (j : JobInput) (pd : ProbeData) :
    countWebhookEvents (successEvents env j pd) = 0 := by
  rw [countWebhookEvents_eq]
  exact countP_successEvents_zero env j pd isWebhookEvent
    (fun _ _ _ _ => rfl) rfl (fun _ => rfl) (fun _ => rfl) (fun _ _ => rfl)
    (fun _ => rfl) (fun _ => rfl) (fun _ _ _ _ => rfl) (fun _ => rfl)

theorem webhookResults_nil_of_no_webhook (evs : List Event)
    (h : evs.countP isWebhookEvent = 0) : webhookResults evs = [] := by
  rw [List.countP_eq_zero] at h
  unfold webhookResults
  rw [List.filterMap_eq_nil_iff]
  intro e he
  have he2 := h e he
  cases e <;> simp_all [isWebhookEvent]

theorem webhookResults_successEvents (env : Env) (j : JobInput) (pd : ProbeData) :
    webhookResults (successEvents env j pd) = [] :=
  webhookResults_nil_of_no_webhook _
    (by rw [← countWebhookEvents_eq]; exact countWebhook_successEvents env j pd)

/-- Handler behaviour when every stage and the completion webhook
succeed. -/
theorem handler_all_ok (env : Env) (j : JobInput) (pd : ProbeData)
    (hdl : env.downloadFail = none)
    (hp : env.probeOutcome = .ok pd)
    (hm : env.mezzanineFail = none)
    (hl : isOkB (analyze_loudness env) = true)
    (hv : ∀ v, env.variantFail v = none)
    (hu : ∀ s k, env.uploadFail s k = none)
    (hpr : env.previewFail = none)
    (hth : env.thumbnailFail = none)
    (hwj : env.waveformJsonFail = none)
    (hwp : env.waveformPngFail = none)
    (hw0 : env.webhookFail 0 = none) :
    handler env j = (.success j.mediaId,
      successEvents env j pd ++
        [Event.webhook j.webhookUrl (successResult j pd)
          (sign_payload env (pyJsonDumpsResult (successResult j pd)) j.webhookSecret)]) := by
  unfold handler
  rw [tryBody_ok env j pd hdl hp hm hl hv hu hpr hth hwj hwp, hw0]

/-- Handler behaviour when every stage succeeds but the completion
webhook delivery fails: the exception is caught, a failure webhook is
attempted, and the handler acknowledges an error. -/
theorem handler_webhook_fail (env : Env) (j : JobInput) (pd : ProbeData) (m : String)
    (hdl : env.downloadFail = none)
    (hp : env.probeOutcome = .ok pd)
    (hm : env.mezzanineFail = none)
    (hl : isOkB (analyze_loudness env) = true)
    (hv : ∀ v, env.variantFail v = none)
    (hu : ∀ s k, env.uploadFail s k = none)
    (hpr : env.previewFail = none)
    (hth : env.thumbnailFail = none)
    (hwj : env.waveformJsonFail = none)
    (hwp : env.waveformPngFail = none)
    (hw0 : env.webhookFail 0 = some m) :
    handler env j = (.error m,
      (successEvents env j pd ++
        [Event.webhook j.webhookUrl (successResult j pd)
          (sign_payload env (pyJsonDumpsResult (successResult j pd)) j.webhookSecret)]) ++
        [Event.webhook j.webhookUrl (failedResult j.mediaId m)
          (sign_payload env (pyJsonDumpsResult (failedResult j.mediaId m)) j.webhookSecret)]) := by
  unfold handler
  rw [tryBody_ok env j pd hdl hp hm hl hv hu hpr hth hwj hwp]
  have hc : countWebhookEvents (successEvents env j pd ++
      [Event.webhook j.webhookUrl (successResult j pd)
        (sign_payload env (pyJsonDumpsResult (successResult j pd)) j.webhookSecret)]) = 1 := by
    rw [countWebhookEvents_eq, List.countP_append, ← countWebhookEvents_eq,
      countWebhook_successEvents]
    rfl
  simp only [hw0]
  rw [hc]
  simp [send_webhook]

-- ===========================================================================
-- Concrete fixtures for witnesses and counterexamples
-- ===========================================================================

/-- A video probe report: 100 seconds, 1920 by 1080. -/
def pdVideo : ProbeData :=
  { durationSeconds := 100
    streams := [{ codec_type := "video", width := some 1920, height := some 1080 }] }

/-- A video probe report with zero duration. -/
def pdVideo0 : ProbeData :=
  { durationSeconds := 0
    streams := [{ codec_type := "video", width := some 1920, height := some 1080 }] }

/-- An audio probe report: 300 seconds, no video stream. -/
def pdAudio : ProbeData :=
  { durationSeconds := 300
    streams := [{ codec_type := "audio", width := none, height := none }] }

/-- An environment in which every external collaborator cooperates. -/
def envAllOk : Env :=
  { gpuAvailable := false
    workDir := "/tmp/transcoding_x"
    downloadFail := none
    probeOutcome := .ok pdVideo
    mezzanineFail := none
    loudnessRun := .completed 0 "frame noise"
    jsonLoads := fun _ => .error ()
    variantFail := fun _ => none
    segments := fun _ => ["segment_000.ts"]
    previewFail := none
    thumbnailFail := none
    waveformJsonFail := none
    waveformPngFail := none
    uploadFail := fun _ _ => none
    webhookFail := fun _ => none
    hmacHex := fun _ _ => "sig" }

/-- A video transcoding job. -/
def jobVideo : JobInput :=
  { mediaId := "m1", creatorId := "c1", type := "video"
    inputKey := "originals/test/video.mp4"
    webhookUrl := "https://api.example.com/webhook", webhookSecret := "secret-123"
    r2Endpoint := "https://r2.example.com", r2AccessKeyId := "rk"
    r2SecretAccessKey := "rs", r2BucketName := "media-bucket"
    b2Endpoint := "https://b2.example.com", b2AccessKeyId := "bk"
    b2SecretAccessKey := "bs", b2BucketName := "archive-bucket" }

/-- An audio transcoding job. -/
def jobAudio : JobInput :=
  { jobVideo with type := "audio", inputKey := "originals/test/audio.mp3" }

-- ===========================================================================
-- Claim theorems
-- ===========================================================================

/-- C7: for every result payload and secret, the signature carried in the
webhook's dedicated header equals the HMAC-SHA256 hex digest (oracle
`hmacHex`), keyed by the job-supplied secret, of exactly the serialized
payload bytes delivered as the POST body: the delivered body bytes exist
(the payload is pure ASCII, so the HTTP stack's encoding cannot fail)
and coincide with the UTF-8 bytes that were signed, hence an independent
verifier recomputing the HMAC over the delivered bytes reproduces the
header value. -/
theorem C7_signature_matches_delivered_bytes (env : Env) (attempt : Nat)
    (url secret : String) (r : TranscodingResult) :
    httpDeliveredBytes (pyJsonDumpsResult r) = some (utf8Encode (pyJsonDumpsResult r)) ∧
    (send_webhook env attempt url secret r).2 =
      .webhook url r (env.hmacHex (utf8Encode secret) (utf8Encode (pyJsonDumpsResult r))) :=
  ⟨latin1_eq_utf8_of_ascii _ (allAscii_pyJsonDumpsResult r), rfl⟩

theorem ladderSelect_pos (h : Int) (hh : h ≠ 0) (l : List (String × VSettings)) :
    ladderSelect (some h) l = l.filter (fun e => decide (e.2.height ≤ h)) := by
  unfold ladderSelect
  apply List.filter_congr
  intro e _
  have h1 : skipVariant (some h) e.2.height = decide (h < e.2.height) := by
    simp only [skipVariant, pyOptIntTruthy, Option.getD]
    simp [hh, gt_iff_lt]
  rw [h1, ← decide_not]
  exact decide_eq_decide.mpr not_lt

/-- C4 (amended): for every video job with a nonzero probed source
height H, a ladder entry with target height T is encoded and returned in
`readyVariants` exactly when T is at most H, in declared ladder order,
assuming every attempted encode succeeds; for H equal to 0 (or unknown)
nothing is skipped; for every audio job both audio entries always
appear, in declared order. -/
theorem C4_ladder_selection_amended (env : Env)
    (hv : ∀ v, env.variantFail v = none) (ip od : String) (gpu : Bool)
    (h : Int) (hh : h ≠ 0) :
    (transcode_video_hls env ip od (some h) gpu).1.map Prod.fst =
      .ok ((HLS_VARIANTS.filter (fun e => decide (e.2.height ≤ h))).map Prod.fst) ∧
    (transcode_audio_hls env ip od).1.map Prod.fst = .ok ["128k", "64k"] := by
  constructor
  · rw [transcode_video_hls, runVideoVariants_ok hv, ladderSelect_pos h hh]
    rfl
  · rw [transcode_audio_hls, runAudioVariants_ok hv]
    rfl

/-- C4 witness: at source height 700, exactly the 480p and 360p entries
are produced. -/
theorem C4_witness :
    (transcode_video_hls envAllOk "in.mp4" "hls" (some 700) false).1.map Prod.fst =
      .ok ((HLS_VARIANTS.filter (fun e => decide (e.2.height ≤ 700))).map Prod.fst) ∧
    (transcode_audio_hls envAllOk "in.mp4" "hls").1.map Prod.fst = .ok ["128k", "64k"] :=
  C4_ladder_selection_amended envAllOk (fun _ => rfl) "in.mp4" "hls" false 700 (by decide)

/-- C4 counterexample: with probed source height 0, every entry is
encoded (Python truthiness makes the skip test vacuous), so the 360p
entry appears in `readyVariants` although its target height 360 is not
at most 0 - the claimed equivalence fails at H = 0. -/
theorem C4_counterexample :
    (transcode_video_hls envAllOk "in.mp4" "hls" (some 0) false).1.map Prod.fst =
      .ok ["1080p", "720p", "480p", "360p"] ∧
    ¬((360 : Int) ≤ 0) := by
  constructor
  · rfl
  · decide

/-- C10: when the probed source height is absent or 0,
`transcode_video_hls` skips nothing: all four declared variants are
encoded and returned, in order - the no-upscaling skip applies only to a
known nonzero height. -/
theorem C10_no_skip_without_positive_height (env : Env)
    (hv : ∀ v, env.variantFail v = none) (ip od : String) (gpu : Bool) :
    (transcode_video_hls env ip od none gpu).1.map Prod.fst =
      .ok ["1080p", "720p", "480p", "360p"] ∧
    (transcode_video_hls env ip od (some 0) gpu).1.map Prod.fst =
      .ok ["1080p", "720p", "480p", "360p"] := by
  constructor
  · rw [transcode_video_hls, runVideoVariants_ok hv]
    rfl
  · rw [transcode_video_hls, runVideoVariants_ok hv]
    rfl

/-- C10 witness at the concrete all-success environment. -/
theorem C10_witness :
    (transcode_video_hls envAllOk "in.mp4" "hls" none false).1.map Prod.fst =
      .ok ["1080p", "720p", "480p", "360p"] ∧
    (transcode_video_hls envAllOk "in.mp4" "hls" (some 0) false).1.map Prod.fst =
      .ok ["1080p", "720p", "480p", "360p"] :=
  C10_no_skip_without_positive_height envAllOk (fun _ => rfl) "in.mp4" "hls" false

/-- The diagnostic output has no parseable measurement block: either no
brace-delimited candidate exists, or the guarded decode/convert attempt
raises one of the handled errors. -/
def loudnessUnparseable (env : Env) (s : String) : Prop :=
  ¬(pyRfind s '\x7b' ≥ 0 ∧ pyRfind s '\x7d' + 1 > pyRfind s '\x7b') ∨
  loudnessParseAttempt env
    (pySlice s (pyRfind s '\x7b') (pyRfind s '\x7d' + 1)) = .error .caught

/-- C5 (amended): `analyze_loudness` never consults the tool's exit
status - when the measurement run completes (with any exit status) and
its output is unparseable it returns the defaults
`{input_i: -16, input_tp: -1, input_lra: 7}` and the pipeline continues;
but a tool timeout is not handled: the `TimeoutExpired` exception
propagates out of `analyze_loudness` and fails the job. -/
theorem C5_loudness_amended (e1 e2 : Env) (ec : Int) (s m : String)
    (h1 : e1.loudnessRun = .completed ec s)
    (h2 : loudnessUnparseable e1 s)
    (h3 : e2.loudnessRun = .timeout m) :
    analyze_loudness e1 = .ok loudnessDefaults ∧ analyze_loudness e2 = .error m := by
  constructor
  · simp only [analyze_loudness, h1]
    rcases h2 with hc | hp
    · rw [if_neg hc]
    · by_cases hcond : pyRfind s '\x7b' ≥ 0 ∧ pyRfind s '\x7d' + 1 > pyRfind s '\x7b'
      · rw [if_pos hcond, hp]
      · rw [if_neg hcond]
  · simp only [analyze_loudness, h3]

/-- Environment whose loudness pass completes with a non-zero exit
status and brace-free diagnostics. -/
def envLoudNoise : Env := { envAllOk with loudnessRun := .completed 1 "no block here" }

/-- Environment whose loudness pass exceeds its 300 second timeout. -/
def envLoudTimeout : Env :=
  { envAllOk with loudnessRun := .timeout "Command timed out after 300 seconds" }

/-- C5 witness: a non-zero exit with unparseable output degrades to the
defaults, while a timeout raises. -/
theorem C5_witness :
    analyze_loudness envLoudNoise = .ok loudnessDefaults ∧
    analyze_loudness envLoudTimeout = .error "Command timed out after 300 seconds" :=
  C5_loudness_amended envLoudNoise envLoudTimeout 1 "no block here"
    "Command timed out after 300 seconds" rfl (Or.inl (by decide)) rfl

/-- C5 counterexample: on a loudness-pass timeout, `analyze_loudness`
raises (contrary to the claim that it never raises and treats a timeout
like a non-zero exit), and the raised exception fails the whole job. -/
theorem C5_counterexample :
    analyze_loudness envLoudTimeout = .error "Command timed out after 300 seconds" ∧
    (handler envLoudTimeout jobVideo).1 =
      .error "Command timed out after 300 seconds" ∧
    webhookResults (handler envLoudTimeout jobVideo).2 =
      [failedResult "m1" "Command timed out after 300 seconds"] := by
  refine ⟨rfl, rfl, rfl⟩

/-- C6 (amended): on a failing job the failure payload's error field is
the exception message truncated to its first 2000 characters (code
points) - the character count never exceeds 2000, but the encoded byte
length of the field in the delivered JSON payload may exceed 2000
bytes when characters escape or encode to multiple bytes. -/
theorem C6_error_truncation_amended (env : Env) (j : JobInput) (msg : String)
    (h : env.downloadFail = some msg) :
    (handler env j).1 = .error msg ∧
    webhookResults (handler env j).2 = [failedResult j.mediaId msg] ∧
    (failedResult j.mediaId msg).error = some (pyTakeStr 2000 msg) ∧
    (pyTakeStr 2000 msg).data.length ≤ 2000 := by
  have hbody : tryBody env j =
      (.error msg,
       [.download .r2 j.r2BucketName j.inputKey (inputPathOf env j)]) := by
    unfold tryBody
    simp [download_file, h, andThen_error, inputPathOf]
  refine ⟨?_, ?_, rfl, ?_⟩
  · unfold handler
    rw [hbody]
  · unfold handler
    rw [hbody]
    simp [send_webhook, webhookResults, List.filterMap_cons]
  · simp [pyTakeStr]

/-- Environment whose download step raises. -/
def envDownloadFail : Env := { envAllOk with downloadFail := some "S3 Download Error" }

/-- C6 witness: a download failure is reported with the message intact
(it is short enough for the truncation to be the identity). -/
theorem C6_witness :
    (handler envDownloadFail jobVideo).1 = .error "S3 Download Error" ∧
    webhookResults (handler envDownloadFail jobVideo).2 =
      [failedResult "m1" "S3 Download Error"] ∧
    (failedResult "m1" "S3 Download Error").error =
      some (pyTakeStr 2000 "S3 Download Error") ∧
    (pyTakeStr 2000 "S3 Download Error").data.length ≤ 2000 :=
  C6_error_truncation_amended envDownloadFail jobVideo "S3 Download Error" rfl

/-- An exception message of 1001 quote characters. -/
def msgQuotes : String := String.mk (List.replicate 1001 '\"')

/-- Environment whose download step raises with `msgQuotes`. -/
def envDownloadQuotes : Env := { envAllOk with downloadFail := some msgQuotes }

set_option maxRecDepth 100000 in
/-- C6 counterexample: the 1001-character message passes the
`[:2000]` character truncation untouched, yet its serialization in the
delivered JSON payload occupies 2004 bytes (every quote escapes to two
bytes, plus the surrounding quotes), exceeding the claimed 2000-byte
cap. -/
theorem C6_counterexample :
    webhookResults (handler envDownloadQuotes jobVideo).2 =
      [failedResult "m1" msgQuotes] ∧
    ((failedResult "m1" msgQuotes).error.map
      (fun e => (utf8Encode (pyJsonStr e)).length)) = some 2004 ∧
    2000 < 2004 := by
  refine ⟨rfl, rfl, by decide⟩

/-- C3 (amended): the loudness-normalization filter of every rendition
encode (video and audio) is the fixed argument
`loudnorm=I=-16:TP=-1.5:LRA=11`, independent of the measured values;
the handler's observable behaviour is invariant under the decoded
measurement values (on runs where the analysis does not raise); and the
preview encode command carries no `-af` loudness filter at all. -/
theorem C3_fixed_loudnorm_filter
    (env : Env) (f g : String → Except Unit PyJson) (j : JobInput) (pd : ProbeData)
    (hdl : env.downloadFail = none)
    (hp : env.probeOutcome = .ok pd)
    (hm : env.mezzanineFail = none)
    (hv : ∀ v, env.variantFail v = none)
    (hu : ∀ s k, env.uploadFail s k = none)
    (hpr : env.previewFail = none)
    (hth : env.thumbnailFail = none)
    (hwj : env.waveformJsonFail = none)
    (hwp : env.waveformPngFail = none)
    (hw0 : env.webhookFail 0 = none)
    (hlf : isOkB (analyze_loudness { env with jsonLoads := f }) = true)
    (hlg : isOkB (analyze_loudness { env with jsonLoads := g }) = true) :
    (∀ (gpu : Bool) (ip vd pp : String) (st : VSettings), ∃ pre post,
      videoVariantCmd gpu ip vd pp st =
        pre ++ "-af" :: "loudnorm=I=-16:TP=-1.5:LRA=11" :: post) ∧
    (∀ (ip vd pp br : String), ∃ pre post,
      audioVariantCmd ip vd pp br =
        pre ++ "-af" :: "loudnorm=I=-16:TP=-1.5:LRA=11" :: post) ∧
    handler { env with jsonLoads := f } j = handler { env with jsonLoads := g } j ∧
    previewCmds (handler envAllOk jobVideo).2 =
      [previewCmd false (inputPathOf envAllOk jobVideo)
        (pjoin (pjoin envAllOk.workDir "hls") "preview") 10 30] ∧
    ("-af" ∈ previewCmd false (inputPathOf envAllOk jobVideo)
        (pjoin (pjoin envAllOk.workDir "hls") "preview") 10 30) = False := by
  refine ⟨?_, ?_, ?_, ?_, ?_⟩
  · intro gpu ip vd pp st
    cases gpu
    · exact ⟨["ffmpeg", "-y", "-i", ip, "-vf", "scale=-2:" ++ pyIntRepr st.height,
        "-c:v", "libx264", "-preset", "fast", "-crf", "23",
        "-b:v", st.video_bitrate, "-maxrate", st.video_bitrate,
        "-bufsize", pyIntRepr (bitrateVal st.video_bitrate * 2) ++ "k",
        "-c:a", "aac", "-b:a", st.audio_bitrate],
        ["-f", "hls", "-hls_time", pyIntRepr HLS_SEGMENT_DURATION,
         "-hls_playlist_type", "vod",
         "-hls_segment_filename", pjoin vd "segment_%03d.ts", pp], rfl⟩
    · exact ⟨["ffmpeg", "-y", "-hwaccel", "cuda", "-i", ip,
        "-vf", "scale=-2:" ++ pyIntRepr st.height,
        "-c:v", "h264_nvenc", "-preset", "p4", "-cq", "23",
        "-b:v", st.video_bitrate, "-maxrate", st.video_bitrate,
        "-bufsize", pyIntRepr (bitrateVal st.video_bitrate * 2) ++ "k",
        "-c:a", "aac", "-b:a", st.audio_bitrate],
        ["-f", "hls", "-hls_time", pyIntRepr HLS_SEGMENT_DURATION,
         "-hls_playlist_type", "vod",
         "-hls_segment_filename", pjoin vd "segment_%03d.ts", pp], rfl⟩
  · intro ip vd pp br
    exact ⟨["ffmpeg", "-y", "-i", ip, "-vn", "-c:a", "aac", "-b:a", br],
      ["-f", "hls", "-hls_time", pyIntRepr HLS_SEGMENT_DURATION,
       "-hls_playlist_type", "vod",
       "-hls_segment_filename", pjoin vd "segment_%03d.ts", pp], rfl⟩
  · rw [handler_all_ok { env with jsonLoads := f } j pd hdl hp hm hlf hv hu hpr hth hwj hwp hw0,
      handler_all_ok { env with jsonLoads := g } j pd hdl hp hm hlg hv hu hpr hth hwj hwp hw0]
    rfl
  · rfl
  · decide

/-- C3 witness: the handler trace is unchanged when the decoded
measurement values change, and the single preview command of the
all-success video run carries no audio filter. -/
theorem C3_witness :
    handler { envAllOk with jsonLoads := fun _ => .error () } jobVideo =
      handler { envAllOk with jsonLoads := fun _ => .ok (.obj []) } jobVideo ∧
    previewCmds (handler envAllOk jobVideo).2 =
      [previewCmd false (inputPathOf envAllOk jobVideo)
        (pjoin (pjoin envAllOk.workDir "hls") "preview") 10 30] := by
  have h := C3_fixed_loudnorm_filter envAllOk (fun _ => .error ())
    (fun _ => .ok (.obj [])) jobVideo pdVideo rfl rfl rfl (fun _ => rfl)
    (fun _ _ => rfl) rfl rfl rfl rfl rfl (by decide) (by decide)
  exact ⟨h.2.2.1, h.2.2.2.1⟩

/-- Environment whose loudness diagnostics decode to the measured
values -23 LUFS, -2 dBTP, 5 LU. -/
def envLoud1 : Env :=
  { envAllOk with
    loudnessRun := .completed 0 "out \x7bblock\x7d tail"
    jsonLoads := fun _ =>
      .ok (.obj [("input_i", .num (-23)), ("input_tp", .num (-2)),
                 ("input_lra", .num 5)]) }

/-- Environment whose loudness diagnostics decode to the measured
values -10 LUFS, 0 dBTP, 3 LU. -/
def envLoud2 : Env :=
  { envAllOk with
    loudnessRun := .completed 0 "out \x7bblock\x7d tail"
    jsonLoads := fun _ =>
      .ok (.obj [("input_i", .num (-10)), ("input_tp", .num 0),
                 ("input_lra", .num 3)]) }

/-- C3 counterexample: two runs measure different loudness values, yet
every external command of the two runs is identical - each ladder encode
carries the fixed filter `loudnorm=I=-16:TP=-1.5:LRA=11` rather than a
function of the measured values, and the preview encode carries no
`-af` filter at all. -/
theorem C3_counterexample :
    analyze_loudness envLoud1 = .ok { input_i := -23, input_tp := -2, input_lra := 5 } ∧
    analyze_loudness envLoud2 = .ok { input_i := -10, input_tp := 0, input_lra := 3 } ∧
    handler envLoud1 jobVideo = handler envLoud2 jobVideo ∧
    variantCmds (handler envLoud1 jobVideo).2 ≠ [] ∧
    (variantCmds (handler envLoud1 jobVideo).2).all
      (fun c => c.contains "loudnorm=I=-16:TP=-1.5:LRA=11") = true ∧
    previewCmds (handler envLoud1 jobVideo).2 ≠ [] ∧
    (previewCmds (handler envLoud1 jobVideo).2).all
      (fun c => !(c.contains "-af")) = true := by
  refine ⟨rfl, rfl, rfl, by decide, by decide, by decide, by decide⟩

theorem countP_eq_zero_of_all {α : Type} (p : α → Bool) (l : List α)
    (h : ∀ a, p a = false) : l.countP p = 0 := by
  rw [List.countP_eq_zero]
  intro a _
  simp [h a]

theorem countP_comp_eq_zero {α : Type} (p : Event → Bool) (f : α → Event)
    (l : List α) (h : ∀ a, p (f a) = false) : List.countP (p ∘ f) l = 0 :=
  countP_eq_zero_of_all _ _ h

theorem isRunPreviewEvent_runVariant (n : String) (c : List String) :
    isRunPreviewEvent (.runVariant n c) = false := rfl

theorem isRunPreviewEvent_upload (st : Store) (b k : String) (ct : Option String) :
    isRunPreviewEvent (.upload st b k ct) = false := rfl

theorem isRunThumbnailEvent_runVariant (n : String) (c : List String) :
    isRunThumbnailEvent (.runVariant n c) = false := rfl

theorem isRunThumbnailEvent_upload (st : Store) (b k : String) (ct : Option String) :
    isRunThumbnailEvent (.upload st b k ct) = false := rfl

theorem countPreview_successEvents (env : Env) (j : JobInput) (pd : ProbeData) :
    (successEvents env j pd).countP isRunPreviewEvent =
      if j.type = "video" ∧ pd.durationSeconds > 0 then 1 else 0 := by
  by_cases hvt : j.type = "video" <;>
  by_cases hd0 : pd.durationSeconds > 0 <;>
  by_cases hau : j.type = "audio"
  all_goals simp [successEvents, List.countP_append, hvt, hd0, hau,
    List.countP_cons, List.countP_map, videoLadderEvents, audioLadderEvents,
    hlsUploadEvents, List.countP_eq_zero, List.countP_false, isRunPreviewEvent,
    Function.comp, isRunPreviewEvent_runVariant, isRunPreviewEvent_upload]
  all_goals rw [countP_comp_eq_zero _ _ _ (fun a => rfl),
    countP_comp_eq_zero _ _ _ (fun a => rfl)]

theorem countThumbnail_successEvents (env : Env) (j : JobInput) (pd : ProbeData) :
    (successEvents env j pd).countP isRunThumbnailEvent =
      if j.type = "video" ∧ pd.durationSeconds > 0 then 1 else 0 := by
  by_cases hvt : j.type = "video" <;>
  by_cases hd0 : pd.durationSeconds > 0 <;>
  by_cases hau : j.type = "audio"
  all_goals simp [successEvents, List.countP_append, hvt, hd0, hau,
    List.countP_cons, List.countP_map, videoLadderEvents, audioLadderEvents,
    hlsUploadEvents, List.countP_eq_zero, List.countP_false, isRunThumbnailEvent,
    Function.comp, isRunThumbnailEvent_runVariant, isRunThumbnailEvent_upload]
  all_goals rw [countP_comp_eq_zero _ _ _ (fun a => rfl),
    countP_comp_eq_zero _ _ _ (fun a => rfl)]

/-- C8: for every video job surviving to the auxiliary stages, if the
probed integer duration d is non-positive, neither the preview nor the
thumbnail stage runs; if d is positive, the preview encode runs with
clip start `max(0, floor(d * 0.1))` seconds and clip length
`min(30, d - start)` seconds (the float product modelled by exact
truncating division). -/
theorem C8_preview_window (env : Env) (j : JobInput) (pd : ProbeData)
    (hdl : env.downloadFail = none)
    (hp : env.probeOutcome = .ok pd)
    (hm : env.mezzanineFail = none)
    (hl : isOkB (analyze_loudness env) = true)
    (hv : ∀ v, env.variantFail v = none)
    (hu : ∀ s k, env.uploadFail s k = none)
    (hpr : env.previewFail = none)
    (hth : env.thumbnailFail = none)
    (hwj : env.waveformJsonFail = none)
    (hwp : env.waveformPngFail = none)
    (hjv : j.type = "video") :
    (pd.durationSeconds ≤ 0 →
      (tryBody env j).2.countP isRunPreviewEvent = 0 ∧
      (tryBody env j).2.countP isRunThumbnailEvent = 0) ∧
    (0 < pd.durationSeconds →
      Event.runPreview (previewCmd env.gpuAvailable (inputPathOf env j)
        (pjoin (pjoin env.workDir "hls") "preview")
        (max 0 (Int.tdiv pd.durationSeconds 10))
        (min 30 (pd.durationSeconds - max 0 (Int.tdiv pd.durationSeconds 10))))
        ∈ (tryBody env j).2) := by
  rw [tryBody_ok env j pd hdl hp hm hl hv hu hpr hth hwj hwp]
  constructor
  · intro hle
    have hd0 : ¬(pd.durationSeconds > 0) := by omega
    constructor
    · rw [List.countP_append, countPreview_successEvents]
      simp [hd0, isRunPreviewEvent, List.countP_cons]
    · rw [List.countP_append, countThumbnail_successEvents]
      simp [hd0, isRunThumbnailEvent, List.countP_cons]
  · intro hgt
    rw [List.mem_append]
    left
    simp only [successEvents, List.mem_append]
    refine Or.inl (Or.inl (Or.inr ?_))
    simp [hjv, hgt, PREVIEW_DURATION]

/-- Environment probing a zero-duration video. -/
def envVideo0 : Env := { envAllOk with probeOutcome := .ok pdVideo0 }

/-- C8 witness: at duration 0 no preview or thumbnail stage runs; at
duration 100 the preview encode runs with start 10 and length 30. -/
theorem C8_witness :
    ((tryBody envVideo0 jobVideo).2.countP isRunPreviewEvent = 0 ∧
      (tryBody envVideo0 jobVideo).2.countP isRunThumbnailEvent = 0) ∧
    Event.runPreview (previewCmd envAllOk.gpuAvailable (inputPathOf envAllOk jobVideo)
      (pjoin (pjoin envAllOk.workDir "hls") "preview") (max 0 (Int.tdiv 100 10))
      (min 30 (100 - max 0 (Int.tdiv 100 10)))) ∈ (tryBody envAllOk jobVideo).2 :=
  ⟨(C8_preview_window envVideo0 jobVideo pdVideo0 rfl rfl rfl (by decide)
      (fun _ => rfl) (fun _ _ => rfl) rfl rfl rfl rfl rfl).1 (by decide),
   (C8_preview_window envAllOk jobVideo pdVideo rfl rfl rfl (by decide)
      (fun _ => rfl) (fun _ _ => rfl) rfl rfl rfl rfl rfl).2 (by decide)⟩

/-- C9: for every job completing successfully, the result's
`hlsPreviewKey` is non-null exactly when the media type is `"video"`,
determined by the media type alone - in particular a completed video
job with non-positive duration still carries the non-null preview key
although no preview encode ran; for any other media type it is null. -/
theorem C9_preview_key_by_media_type (env : Env) (j : JobInput) (pd : ProbeData)
    (hdl : env.downloadFail = none)
    (hp : env.probeOutcome = .ok pd)
    (hm : env.mezzanineFail = none)
    (hl : isOkB (analyze_loudness env) = true)
    (hv : ∀ v, env.variantFail v = none)
    (hu : ∀ s k, env.uploadFail s k = none)
    (hpr : env.previewFail = none)
    (hth : env.thumbnailFail = none)
    (hwj : env.waveformJsonFail = none)
    (hwp : env.waveformPngFail = none)
    (hw0 : env.webhookFail 0 = none) :
    (handler env j).1 = .success j.mediaId ∧
    webhookResults (handler env j).2 = [successResult j pd] ∧
    (successResult j pd).status = "completed" ∧
    (successResult j pd).hlsPreviewKey =
      (if j.type = "video" then some (hlsRootOf j ++ "preview/preview.m3u8") else none) ∧
    ((successResult j pd).hlsPreviewKey ≠ none ↔ j.type = "video") ∧
    (j.type = "video" → pd.durationSeconds ≤ 0 →
      (handler env j).2.countP isRunPreviewEvent = 0) := by
  rw [handler_all_ok env j pd hdl hp hm hl hv hu hpr hth hwj hwp hw0]
  refine ⟨rfl, ?_, rfl, rfl, ?_, ?_⟩
  · rw [webhookResults, List.filterMap_append, ← webhookResults,
      webhookResults_successEvents]
    rfl
  · by_cases hvt : j.type = "video" <;> simp [successResult, hvt]
  · intro hvt hle
    have hd0 : ¬(pd.durationSeconds > 0) := by omega
    rw [List.countP_append, countPreview_successEvents]
    simp [hd0, isRunPreviewEvent, List.countP_cons]

/-- C9 witness: a completed video job with duration 0 carries the
non-null preview key while no preview encode ran; spelled out from the
theorem at the concrete zero-duration environment. -/
theorem C9_witness :
    (handler envVideo0 jobVideo).1 = .success "m1" ∧
    (successResult jobVideo pdVideo0).hlsPreviewKey =
      (if jobVideo.type = "video" then
        some (hlsRootOf jobVideo ++ "preview/preview.m3u8") else none) ∧
    ((successResult jobVideo pdVideo0).hlsPreviewKey ≠ none ↔ jobVideo.type = "video") ∧
    (handler envVideo0 jobVideo).2.countP isRunPreviewEvent = 0 := by
  have h := C9_preview_key_by_media_type envVideo0 jobVideo pdVideo0 rfl rfl rfl
    (by decide) (fun _ => rfl) (fun _ _ => rfl) rfl rfl rfl rfl rfl
  exact ⟨h.1, h.2.2.2.1, h.2.2.2.2.1, h.2.2.2.2.2 rfl (by decide)⟩

/-- C1 (amended): when every pipeline stage up to result construction
succeeds, the handler returns the success acknowledgment exactly when
the completion-webhook delivery also succeeds; a completion-webhook
failure is caught by the orchestrator's exception handler, which then
attempts one failure webhook (whose payload reports the job as failed
with all artifact fields null) and makes the handler return an error
acknowledgment carrying the webhook error - so a webhook-delivery
failure does convert an otherwise successful job into an error report,
while a failure of the failure webhook itself never masks the reported
error. -/
theorem C1_webhook_failure_flips_ack (env : Env) (j : JobInput) (pd : ProbeData)
    (hdl : env.downloadFail = none)
    (hp : env.probeOutcome = .ok pd)
    (hm : env.mezzanineFail = none)
    (hl : isOkB (analyze_loudness env) = true)
    (hv : ∀ v, env.variantFail v = none)
    (hu : ∀ s k, env.uploadFail s k = none)
    (hpr : env.previewFail = none)
    (hth : env.thumbnailFail = none)
    (hwj : env.waveformJsonFail = none)
    (hwp : env.waveformPngFail = none) :
    (env.webhookFail 0 = none →
      (handler env j).1 = .success j.mediaId ∧
      countWebhookEvents (handler env j).2 = 1) ∧
    (∀ m, env.webhookFail 0 = some m →
      (handler env j).1 = .error m ∧
      countWebhookEvents (handler env j).2 = 2 ∧
      webhookResults (handler env j).2 =
        [successResult j pd, failedResult j.mediaId m]) := by
  constructor
  · intro hw0
    rw [handler_all_ok env j pd hdl hp hm hl hv hu hpr hth hwj hwp hw0]
    refine ⟨rfl, ?_⟩
    rw [countWebhookEvents_eq, List.countP_append, ← countWebhookEvents_eq,
      countWebhook_successEvents]
    rfl
  · intro m hw0
    rw [handler_webhook_fail env j pd m hdl hp hm hl hv hu hpr hth hwj hwp hw0]
    refine ⟨rfl, ?_, ?_⟩
    · rw [countWebhookEvents_eq, List.countP_append, List.countP_append,
        ← countWebhookEvents_eq, countWebhook_successEvents]
      rfl
    · rw [webhookResults, List.filterMap_append, List.filterMap_append,
        ← webhookResults, webhookResults_successEvents]
      rfl

/-- C1 witness: with a cooperative webhook endpoint the all-success run
acknowledges success with exactly one delivery attempt. -/
theorem C1_witness :
    (handler envAllOk jobVideo).1 = .success "m1" ∧
    countWebhookEvents (handler envAllOk jobVideo).2 = 1 :=
  (C1_webhook_failure_flips_ack envAllOk jobVideo pdVideo rfl rfl rfl (by decide)
    (fun _ => rfl) (fun _ _ => rfl) rfl rfl rfl rfl).1 rfl

/-- Environment whose first webhook delivery returns a non-2xx answer. -/
def envWebhookFail : Env :=
  { envAllOk with
    webhookFail := fun n => if n = 0 then some "500 Server Error" else none }

/-- C1 counterexample: every pipeline stage up to and including result
construction succeeds, the completion-webhook POST fails, and the
handler returns the error acknowledgment instead of the claimed success
acknowledgment - the webhook-delivery failure converts the successful
job into a failed report. -/
theorem C1_counterexample :
    (handler envWebhookFail jobVideo).1 = .error "500 Server Error" ∧
    ¬((handler envWebhookFail jobVideo).1 = .success "m1") := by
  refine ⟨rfl, by decide⟩

/-- C2: on the all-success video run the handler acknowledges success
and the completion payload names the preview key, yet the preview
artifacts are generated only after the single HLS directory upload, so
no upload of the preview playlist key ever happens - the key refers to
an object that was never uploaded. -/
theorem C2_preview_key_without_upload :
    (handler envAllOk jobVideo).1 = .success "m1" ∧
    (webhookResults (handler envAllOk jobVideo).2).map
      (fun r => (r.status, r.hlsPreviewKey)) =
      [("completed", some "c1/hls/m1/preview/preview.m3u8")] ∧
    ¬("c1/hls/m1/preview/preview.m3u8" ∈ uploadedKeys (handler envAllOk jobVideo).2) ∧
    (handler envAllOk jobVideo).2.countP isRunPreviewEvent = 1 ∧
    uploadedKeys (handler envAllOk jobVideo).2 ≠ [] := by
  refine ⟨rfl, rfl, by decide, rfl, by decide⟩
